import Mathlib

/-!
# ARProject: tilting-board mini-game (`iwsdk-app/src/index.js`)

A shallow embedding of the game logic of `index.js`.  JavaScript numbers are
interpreted in an arbitrary linearly ordered field `K` (instantiate `K := ℚ` to
execute the definitions on concrete data, `K := ℝ` for real arithmetic).  The
functions `Math.hypot`, `Math.sin`, `Math.cos` and the constant `Math.PI` are
supplied by a `MathEnv`; `performance.now()` and `Math.random()` are inputs.
Counters (`score`, `bestScore`, `streak`) are natural numbers.
-/

namespace ARProject

/-! ## Data model -/

/-- A `position` of a mesh. -/
structure Vec3 (K : Type) where
  x : K
  y : K
  z : K
deriving DecidableEq

/-- The host functions of `Math` used by the script. -/
structure MathEnv (K : Type) where
  hypot : K → K → K
  sin : K → K
  cos : K → K
  pi : K

/-- A thumbstick reading `{ x, y }`. -/
structure Stick (K : Type) where
  x : K
  y : K
deriving DecidableEq

/-- The `handedness` of an XR input source. -/
inductive Handedness where
  | none
  | left
  | right
deriving DecidableEq

/-- The `gamepad` of an input source; `axes` may be absent. -/
structure Gamepad (K : Type) where
  axes : Option (List K)

/-- An element of `session.inputSources`. -/
structure InputSource (K : Type) where
  gamepad : Option (Gamepad K)
  handedness : Handedness

/-- The XR session: only `inputSources` is read. -/
structure XRSession (K : Type) where
  inputSources : List (InputSource K)

/-- The object `world.xr`; `session` is null outside an XR session. -/
structure XR (K : Type) where
  session : Option (XRSession K)

/-- The result `{ tilt, striker }` of `readXRThumbsticks`. -/
structure Thumbsticks (K : Type) where
  tilt : Option (Stick K)
  striker : Option (Stick K)
deriving DecidableEq

/-- The flags of `tiltKeys` and of `strikerKeys`. -/
structure Keys where
  left : Bool
  right : Bool
  up : Bool
  down : Bool
deriving DecidableEq

/-- One entry of `confettiPieces`, with the fields of its mesh that the script
reads or writes. -/
structure Confetti (K : Type) where
  size : K
  colorIndex : Nat
  pos : Vec3 K
  rotX : K
  rotY : K
  opacity : K
  vy : K
  life : K
  spinX : K
  spinY : K
deriving DecidableEq

/-- What `renderHud` last drew on the message canvas. -/
structure HudFrame where
  mainText : String
  score : Nat
  streak : Nat
  best : Nat
deriving DecidableEq

/-- The mutable variables of the closure. -/
structure State (K : Type) where
  /-- whether `msgCanvas.getContext` returned a context -/
  hasCtx : Bool
  hud : Option HudFrame
  /-- the delay of the pending `setTimeout`, when `messageTimeoutId` is not null -/
  messageTimeout : Option K
  score : Nat
  bestScore : Nat
  streak : Nat
  boardRotX : K
  boardRotZ : K
  ball : Vec3 K
  striker : Vec3 K
  obstacle1X : K
  obstacle2X : K
  obstacleTime : K
  tiltX : K
  tiltZ : K
  vx : K
  vz : K
  lastTime : K
  lastOutcomeTime : K
  idleTimer : K
  confettiPieces : List (Confetti K)

/-- What one animation frame reads from outside the closure. -/
structure FrameInput (K : Type) where
  /-- the argument of `step` -/
  now : K
  /-- the value of `performance.now()` inside `handleGoalOrMiss` -/
  nowMs : K
  xr : Option (XR K)
  tiltKeys : Keys
  strikerKeys : Keys
  /-- the successive values of `Math.random()` in this frame -/
  random : Nat → K

section Defs

variable {K : Type} [LinearOrderedField K]

/-! ## Constants -/

def fieldWidth : K := 1.5
def fieldHeight : K := 4.0
def goalDepth : K := 0.25
def goalWidth : K := 0.8
def ballRadius : K := 0.06
def strikerWidth : K := 0.35
def strikerDepth : K := 0.07
def strikerHeight : K := 0.04

def halfW : K := fieldWidth / 2 - ballRadius
def halfH : K := fieldHeight / 2 - ballRadius

def goalZBandMin : K := -fieldHeight / 2
def goalZBandMax : K := -fieldHeight / 2 + goalDepth
def goalXHalf : K := goalWidth / 2

def strikerHalfW : K := strikerWidth / 2
def strikerHalfD : K := strikerDepth / 2

def OUTCOME_COOLDOWN_MS : K := 800

/-- The position of `goalMesh`. -/
def goalPos : Vec3 K := ⟨0, 0.01, -fieldHeight / 2 + goalDepth / 2⟩

/-- The position of `obstacle1`: only `x` is ever written. -/
def obstacle1Pos (s : State K) : Vec3 K := ⟨s.obstacle1X, 0.025, 0⟩

/-- The position of `obstacle2`: only `x` is ever written. -/
def obstacle2Pos (s : State K) : Vec3 K := ⟨s.obstacle2X, 0.025, -0.4⟩

/-! ## HUD -/

/-- The function `renderHud(mainText)`. -/
def renderHud (mainText : String) (s : State K) : State K :=
  if !s.hasCtx then s
  else { s with hud := some ⟨mainText, s.score, s.streak, s.bestScore⟩ }

/-- The function `showMessage(text, durationMs)`. -/
def showMessage (text : String) (durationMs : K) (s : State K) : State K :=
  let s := if s.messageTimeout.isSome then { s with messageTimeout := none } else s
  let s := renderHud text s
  if text ≠ "" then
    { s with messageTimeout := some (if durationMs = 0 then 1200 else durationMs) }
  else s

/-- The callback given to `setTimeout` in `showMessage`. -/
def messageTimeoutFires (s : State K) : State K :=
  { renderHud "" s with messageTimeout := none }

/-! ## Resets -/

/-- The function `resetBall()`. -/
def resetBall (s : State K) : State K :=
  { s with
    ball := ⟨-fieldWidth / 2 + ballRadius * 2, ballRadius, fieldHeight / 2 - ballRadius * 2⟩
    vx := 0
    vz := 0 }

/-- The function `resetStriker()`. -/
def resetStriker (s : State K) : State K :=
  { s with striker := ⟨0, strikerHeight / 2, fieldHeight / 2 - 0.6⟩ }

/-! ## Input -/

/-- The function `updateTiltFromKeys()`. -/
def updateTiltFromKeys (tiltKeys : Keys) (s : State K) : State K :=
  let targetX : K := (if tiltKeys.up then 1 else 0) + (if tiltKeys.down then -1 else 0)
  let targetZ : K := (if tiltKeys.right then 1 else 0) + (if tiltKeys.left then -1 else 0)
  let lerp : K := 0.12
  { s with
    tiltX := s.tiltX + (targetX - s.tiltX) * lerp
    tiltZ := s.tiltZ + (targetZ - s.tiltZ) * lerp }

/-- The function `updateStrikerFromKeys(dt)`. -/
def updateStrikerFromKeys (E : MathEnv K) (strikerKeys : Keys) (dt : K) (s : State K) :
    State K :=
  let moveSpeed : K := 1.8
  let mx : K := 0
  let mz : K := 0
  let mx := if strikerKeys.left then mx - 1 else mx
  let mx := if strikerKeys.right then mx + 1 else mx
  let mz := if strikerKeys.up then mz - 1 else mz
  let mz := if strikerKeys.down then mz + 1 else mz
  if mx ≠ 0 ∨ mz ≠ 0 then
    let len := if E.hypot mx mz = 0 then 1 else E.hypot mx mz
    let mx := mx / len
    let mz := mz / len
    { s with
      striker :=
        { s.striker with
          x := s.striker.x + mx * moveSpeed * dt
          z := s.striker.z + mz * moveSpeed * dt } }
  else s

/-- The three local variables of the loop of `readXRThumbsticks`. -/
structure StickSlots (K : Type) where
  rightStick : Option (Stick K)
  leftStick : Option (Stick K)
  fallback : Option (Stick K)

/-- One iteration of the loop over `session.inputSources`. -/
def readSource (E : MathEnv K) (slots : StickSlots K) (source : InputSource K) :
    StickSlots K :=
  let DEADZONE : K := 0.15
  match source.gamepad with
  | none => slots
  | some gp =>
    match gp.axes with
    | some (x :: y :: _) =>
      let mag := E.hypot x y
      if mag < DEADZONE then slots
      else
        let x := if |x| < DEADZONE then 0 else x
        let y := if |y| < DEADZONE then 0 else y
        let stick : Stick K := ⟨x, y⟩
        match source.handedness with
        | Handedness.right => { slots with rightStick := some stick }
        | Handedness.left => { slots with leftStick := some stick }
        | Handedness.none => { slots with fallback := some stick }
    | _ => slots

/-- The function `readXRThumbsticks()`. -/
def readXRThumbsticks (E : MathEnv K) (xr : Option (XR K)) : Thumbsticks K :=
  match xr with
  | none => ⟨none, none⟩
  | some w =>
    match w.session with
    | none => ⟨none, none⟩
    | some session =>
      let slots := session.inputSources.foldl (readSource E) ⟨none, none, none⟩
      let rightStick :=
        if slots.rightStick.isNone ∧ slots.leftStick.isNone ∧ slots.fallback.isSome then
          slots.fallback
        else slots.rightStick
      ⟨rightStick, slots.leftStick⟩

/-! ## Confetti -/

/-- The body of the loop of `spawnGoalConfetti` for index `i`: eight calls of
`Math.random()` per piece, in source order. -/
def newConfetti (random : Nat → K) (i : Nat) : Confetti K :=
  let r : Nat → K := fun k => random (8 * i + k)
  { size := 0.02 + r 0 * 0.03
    colorIndex := i % 5
    pos := ⟨goalPos.x + (r 1 - 0.5) * 0.7, 0.1 + r 2 * 0.25, goalPos.z + (r 3 - 0.5) * 0.3⟩
    rotX := 0
    rotY := 0
    opacity := 1
    vy := 1.3 + r 4 * 0.7
    life := 1.6 + r 5 * 0.6
    spinX := (r 6 - 0.5) * 6
    spinY := (r 7 - 0.5) * 6 }

/-- The function `spawnGoalConfetti()`: pushes `count = 20` pieces. -/
def spawnGoalConfetti (random : Nat → K) (s : State K) : State K :=
  { s with confettiPieces := s.confettiPieces ++ (List.range 20).map (newConfetti random) }

/-- The in-place update of one piece `c` in `updateConfetti`, before the
removal test. -/
def updatePiece (dt : K) (c : Confetti K) : Confetti K :=
  let vy := c.vy - 3.5 * dt
  let y := c.pos.y + vy * dt
  let life := c.life - dt
  { c with
    vy := vy
    pos := { c.pos with y := y }
    rotX := c.rotX + c.spinX * dt
    rotY := c.rotY + c.spinY * dt
    life := life
    opacity := max 0 (life / 2) }

/-- The loop `for (let i = confettiPieces.length - 1; i >= 0; i--)` of
`updateConfetti`, with `n = i + 1` iterations left; `splice(i, 1)` is
`eraseIdx i`. -/
def updateConfettiLoop (dt : K) : Nat → List (Confetti K) → List (Confetti K)
  | 0, pieces => pieces
  | i + 1, pieces =>
    match pieces[i]? with
    | none => updateConfettiLoop dt i pieces
    | some c =>
      let c := updatePiece dt c
      let pieces := pieces.set i c
      if c.life ≤ 0 ∨ c.pos.y < 0 then updateConfettiLoop dt i (pieces.eraseIdx i)
      else updateConfettiLoop dt i pieces

/-- The function `updateConfetti(dt)`. -/
def updateConfetti (dt : K) (s : State K) : State K :=
  { s with
    confettiPieces := updateConfettiLoop dt s.confettiPieces.length s.confettiPieces }

/-! ## Striker clamp and collisions -/

/-- The function `clampStrikerInsideField()`. -/
def clampStrikerInsideField (s : State K) : State K :=
  let marginX : K := 0.1
  let marginZ : K := 0.3
  let minX : K := -fieldWidth / 2 + strikerHalfW + marginX
  let maxX : K := fieldWidth / 2 - strikerHalfW - marginX
  let minZ : K := 0
  let maxZ : K := fieldHeight / 2 - strikerHalfD - marginZ
  let x := s.striker.x
  let x := if x < minX then minX else x
  let x := if x > maxX then maxX else x
  let z := s.striker.z
  let z := if z < minZ then minZ else z
  let z := if z > maxZ then maxZ else z
  { s with striker := ⟨x, strikerHeight / 2, z⟩ }

/-- The function `handleStrikerCollision()`. -/
def handleStrikerCollision (E : MathEnv K) (s : State K) : State K :=
  let dx := s.ball.x - s.striker.x
  let dz := s.ball.z - s.striker.z
  let dist := E.hypot dx dz
  let minDist : K := ballRadius + max strikerHalfW strikerHalfD * 0.9
  if dist > 0 ∧ dist < minDist then
    let nx := dx / dist
    let nz := dz / dist
    let overlap := minDist - dist
    let ball := { s.ball with x := s.ball.x + nx * overlap, z := s.ball.z + nz * overlap }
    let dot := s.vx * nx + s.vz * nz
    let vx := if dot < 0 then s.vx - 2 * dot * nx else s.vx
    let vz := if dot < 0 then s.vz - 2 * dot * nz else s.vz
    let hitStrength : K := 6.0
    { s with ball := ball, vx := vx + nx * hitStrength, vz := vz + nz * hitStrength }
  else s

/-- The function `handleObstacleCollision(obstacleMesh)`, applied to the
position of the obstacle. -/
def handleObstacleCollision (E : MathEnv K) (obstacle : Vec3 K) (s : State K) : State K :=
  let dx := s.ball.x - obstacle.x
  let dz := s.ball.z - obstacle.z
  let dist := E.hypot dx dz
  let obstacleHalf : K := 0.18
  let minDist : K := ballRadius + obstacleHalf
  if dist > 0 ∧ dist < minDist then
    let nx := dx / dist
    let nz := dz / dist
    let overlap := minDist - dist
    let ball := { s.ball with x := s.ball.x + nx * overlap, z := s.ball.z + nz * overlap }
    let dot := s.vx * nx + s.vz * nz
    let vx := if dot < 0 then s.vx - 2 * dot * nx else s.vx
    let vz := if dot < 0 then s.vz - 2 * dot * nz else s.vz
    { s with ball := ball, vx := vx, vz := vz }
  else s

/-! ## Goal and miss -/

/-- The function `handleGoalOrMiss()`; `nowMs` is the value of
`performance.now()`. -/
def handleGoalOrMiss (random : Nat → K) (nowMs : K) (s : State K) : State K :=
  if nowMs - s.lastOutcomeTime < OUTCOME_COOLDOWN_MS then s
  else
    let backZone : K := goalZBandMax + 0.02
    if s.ball.z > backZone then s
    else
      let inGoalZBand : Bool := decide (s.ball.z ≥ goalZBandMin) && decide (s.ball.z ≤ goalZBandMax)
      let inGoalX : Bool := decide (|s.ball.x| ≤ goalXHalf)
      if inGoalZBand && inGoalX then
        let s := { s with lastOutcomeTime := nowMs, score := s.score + 1, streak := s.streak + 1 }
        let s := if s.score > s.bestScore then { s with bestScore := s.score } else s
        showMessage "GOAL!" 1200 (spawnGoalConfetti random (resetStriker (resetBall s)))
      else if !inGoalX then
        let s := { s with lastOutcomeTime := nowMs, streak := 0 }
        showMessage "MISS!" 800 (resetStriker (resetBall s))
      else s

/-! ## The frame callback -/

/-- The block `// INPUT` of `step`: tilt from the right stick or the keys. -/
def applyTiltInput (sticks : Thumbsticks K) (tiltKeys : Keys) (s : State K) : State K :=
  match sticks.tilt with
  | some tilt => { s with tiltZ := tilt.x, tiltX := -tilt.y }
  | none => updateTiltFromKeys tiltKeys s

/-- The block `// INPUT` of `step`: striker from the left stick or the keys. -/
def applyStrikerInput (E : MathEnv K) (sticks : Thumbsticks K) (strikerKeys : Keys) (dt : K)
    (s : State K) : State K :=
  match sticks.striker with
  | some striker =>
    let moveSpeed : K := 1.8
    let sx := striker.x
    let sz := -striker.y
    { s with
      striker :=
        { s.striker with
          x := s.striker.x + sx * moveSpeed * dt
          z := s.striker.z + sz * moveSpeed * dt } }
  | none => updateStrikerFromKeys E strikerKeys dt s

/-- The blocks of `step` from `// Apply tilt visually` to
`// Integrate local position`. -/
def integrateBall (E : MathEnv K) (baseTiltX : K) (dt : K) (s : State K) : State K :=
  let maxExtraTilt : K := E.pi / 8
  let s := { s with
    boardRotX := baseTiltX + s.tiltX * maxExtraTilt
    boardRotZ := s.tiltZ * maxExtraTilt }
  let accelScale : K := 7.0
  let s := { s with vx := s.vx + s.tiltZ * accelScale * dt, vz := s.vz + s.tiltX * accelScale * dt }
  let FRICTION : K := 0.96
  let s := { s with vx := s.vx * FRICTION, vz := s.vz * FRICTION }
  { s with ball := ⟨s.ball.x + s.vx * dt, ballRadius, s.ball.z + s.vz * dt⟩ }

/-- The block `// Clamp & bounce off edges` of `step`. -/
def clampBounce (s : State K) : State K :=
  let s :=
    if s.ball.x > halfW then { s with ball := { s.ball with x := halfW }, vx := s.vx * -0.5 }
    else if s.ball.x < -halfW then
      { s with ball := { s.ball with x := -halfW }, vx := s.vx * -0.5 }
    else s
  if s.ball.z > halfH then { s with ball := { s.ball with z := halfH }, vz := s.vz * -0.5 }
  else if s.ball.z < -halfH then
    { s with ball := { s.ball with z := -halfH }, vz := s.vz * -0.5 }
  else s

/-- The block `// Moving defenders` of `step`. -/
def moveDefenders (E : MathEnv K) (dt : K) (s : State K) : State K :=
  let s := { s with obstacleTime := s.obstacleTime + dt }
  { s with
    obstacle1X := -0.35 + E.sin (s.obstacleTime * 0.8) * 0.15
    obstacle2X := 0.35 + E.cos (s.obstacleTime * 0.7) * 0.15 }

/-- The block `// Auto-reset if ball is stuck / barely moving` of `step`. -/
def autoReset (dt : K) (s : State K) : State K :=
  let speedSq := s.vx * s.vx + s.vz * s.vz
  if speedSq < 0.001 then
    let s := { s with idleTimer := s.idleTimer + dt }
    if s.idleTimer > 3.0 then
      let s := { s with idleTimer := 0, streak := 0 }
      showMessage "Reset!" 600 (resetStriker (resetBall s))
    else s
  else { s with idleTimer := 0 }

/-- The frame callback `step(now)`. -/
def step (E : MathEnv K) (inp : FrameInput K) (s : State K) : State K :=
  let dt : K := min 0.05 ((inp.now - s.lastTime) / 1000)
  let s := { s with lastTime := inp.now }
  let sticks := readXRThumbsticks E inp.xr
  let s := applyTiltInput sticks inp.tiltKeys s
  let s := applyStrikerInput E sticks inp.strikerKeys dt s
  let s := clampStrikerInsideField s
  let s := integrateBall E (-E.pi / 4) dt s
  let s := clampBounce s
  let s := moveDefenders E dt s
  let s := handleStrikerCollision E s
  let s := handleObstacleCollision E (obstacle1Pos s) s
  let s := handleObstacleCollision E (obstacle2Pos s) s
  let s := handleGoalOrMiss inp.random inp.nowMs s
  let s := autoReset dt s
  updateConfetti dt s

/-- The state when the script has run to its last line: both meshes at their
start positions, the hint shown. `t0` is the value of `performance.now()` stored
in `lastTime`. -/
def initState (E : MathEnv K) (hasCtx : Bool) (t0 : K) : State K :=
  let s : State K :=
    { hasCtx := hasCtx
      hud := none
      messageTimeout := none
      score := 0
      bestScore := 0
      streak := 0
      boardRotX := -E.pi / 4
      boardRotZ := 0
      ball := ⟨-fieldWidth / 2 + ballRadius * 2, ballRadius, fieldHeight / 2 - ballRadius * 2⟩
      striker := ⟨0, strikerHeight / 2, fieldHeight / 2 - 0.6⟩
      obstacle1X := -0.35
      obstacle2X := 0.35
      obstacleTime := 0
      tiltX := 0
      tiltZ := 0
      vx := 0
      vz := 0
      lastTime := t0
      lastOutcomeTime := 0
      idleTimer := 0
      confettiPieces := [] }
  showMessage "Tilt: Arrows / Right Stick â€¢ Hit: WASD / Left Stick" 2600 (renderHud "" s)

/-- What the browser runs after the script: an animation frame or the expiry
of the message timer. -/
inductive Event (K : Type) where
  | frame (inp : FrameInput K)
  | messageTimeout

/-- One event applied to the state. -/
def applyEvent (E : MathEnv K) (s : State K) : Event K → State K
  | Event.frame inp => step E inp s
  | Event.messageTimeout => if s.messageTimeout.isSome then messageTimeoutFires s else s

/-- The state after a sequence of events, from the initial state. -/
def run (E : MathEnv K) (hasCtx : Bool) (t0 : K) (events : List (Event K)) : State K :=
  events.foldl (applyEvent E) (initState E hasCtx t0)

/-- One call of `handleGoalOrMiss`: the clock value it reads, the random source
and the state the rest of the frame has produced before the call.  The variable
`lastOutcomeTime` is written by `handleGoalOrMiss` only, so its value is carried
over from the previous call and the field of `pre` is ignored. -/
structure GoalCheck (K : Type) where
  nowMs : K
  random : Nat → K
  pre : State K

/-- The clock values of the calls that record an outcome (that assign
`lastOutcomeTime`), in a sequence of calls of `handleGoalOrMiss` that starts with
`lastOutcomeTime = last`. -/
def outcomeTimes (last : K) : List (GoalCheck K) → List K
  | [] => []
  | c :: rest =>
    let s := { c.pre with lastOutcomeTime := last }
    let s' := handleGoalOrMiss c.random c.nowMs s
    if s'.lastOutcomeTime = last then outcomeTimes last rest
    else c.nowMs :: outcomeTimes s'.lastOutcomeTime rest

/-- The relation between the counters and the HUD that every frame keeps. -/
def ScoreInv (s : State K) : Prop :=
  s.bestScore = s.score ∧ s.streak ≤ s.score ∧ ∀ f, s.hud = some f → f.best = f.score

/-- The two states agree on the counters and on the HUD. -/
def SameScores (s' s : State K) : Prop :=
  s'.score = s.score ∧ s'.bestScore = s.bestScore ∧ s'.streak = s.streak ∧ s'.hud = s.hud ∧
  s'.hasCtx = s.hasCtx

/-- The function `Math.hypot` is exact: the non-negative square root of the sum of
squares. -/
def ExactHypot (E : MathEnv K) : Prop :=
  ∀ x z : K, 0 ≤ E.hypot x z ∧ E.hypot x z * E.hypot x z = x * x + z * z

/-- A state with given ball, striker and ball velocity, the game just started. -/
def sampleState (ball striker : Vec3 K) (vx vz : K) : State K :=
  { hasCtx := true
    hud := none
    messageTimeout := none
    score := 0
    bestScore := 0
    streak := 0
    boardRotX := 0
    boardRotZ := 0
    ball := ball
    striker := striker
    obstacle1X := -0.35
    obstacle2X := 0.35
    obstacleTime := 0
    tiltX := 0
    tiltZ := 0
    vx := vx
    vz := vz
    lastTime := 0
    lastOutcomeTime := 0
    idleTimer := 0
    confettiPieces := [] }

/-- The functions `Math.sin` and `Math.cos` take values in `[-1, 1]`. -/
def BoundedTrig (E : MathEnv K) : Prop :=
  ∀ t : K, |E.sin t| ≤ 1 ∧ |E.cos t| ≤ 1

end Defs

/-! ## Sample data for the instances of the theorems -/

/-- A math environment over `ℚ` whose `hypot` is exact on the axes. -/
def axisMath : MathEnv ℚ :=
  { hypot := fun x z => if z = 0 then |x| else if x = 0 then |z| else |x| + |z|
    sin := fun _ => 0
    cos := fun _ => 1
    pi := 3 }

/-- A frame input without XR session and without keys pressed. -/
def idleInput {K : Type} [LinearOrderedField K] (now nowMs : K) : FrameInput K :=
  { now := now
    nowMs := nowMs
    xr := none
    tiltKeys := ⟨false, false, false, false⟩
    strikerKeys := ⟨false, false, false, false⟩
    random := fun _ => 1 / 2 }

/-- The initial state over `ℚ` with the ball moved to `(x, z)`. -/
def ballAt (x z : ℚ) : State ℚ :=
  { initState axisMath true 0 with ball := ⟨x, 0.06, z⟩ }

section Theorems

set_option linter.unusedSectionVars false

variable {K : Type} [LinearOrderedField K]

/-! ## The HUD functions leave the game state alone -/

theorem renderHud_eq (text : String) (s : State K) :
    ∃ h, renderHud text s = { s with hud := h } := by
  unfold renderHud
  cases s
  simp only
  split_ifs <;> exact ⟨_, rfl⟩

@[simp] theorem renderHud_score (text : String) (s : State K) :
    (renderHud text s).score = s.score := by
  obtain ⟨h, e⟩ := renderHud_eq text s
  rw [e]

@[simp] theorem renderHud_bestScore (text : String) (s : State K) :
    (renderHud text s).bestScore = s.bestScore := by
  obtain ⟨h, e⟩ := renderHud_eq text s
  rw [e]

@[simp] theorem renderHud_streak (text : String) (s : State K) :
    (renderHud text s).streak = s.streak := by
  obtain ⟨h, e⟩ := renderHud_eq text s
  rw [e]

@[simp] theorem renderHud_ball (text : String) (s : State K) :
    (renderHud text s).ball = s.ball := by
  obtain ⟨h, e⟩ := renderHud_eq text s
  rw [e]

@[simp] theorem renderHud_striker (text : String) (s : State K) :
    (renderHud text s).striker = s.striker := by
  obtain ⟨h, e⟩ := renderHud_eq text s
  rw [e]

@[simp] theorem renderHud_vx (text : String) (s : State K) :
    (renderHud text s).vx = s.vx := by
  obtain ⟨h, e⟩ := renderHud_eq text s
  rw [e]

@[simp] theorem renderHud_vz (text : String) (s : State K) :
    (renderHud text s).vz = s.vz := by
  obtain ⟨h, e⟩ := renderHud_eq text s
  rw [e]

@[simp] theorem renderHud_lastOutcomeTime (text : String) (s : State K) :
    (renderHud text s).lastOutcomeTime = s.lastOutcomeTime := by
  obtain ⟨h, e⟩ := renderHud_eq text s
  rw [e]

@[simp] theorem renderHud_lastTime (text : String) (s : State K) :
    (renderHud text s).lastTime = s.lastTime := by
  obtain ⟨h, e⟩ := renderHud_eq text s
  rw [e]

@[simp] theorem renderHud_idleTimer (text : String) (s : State K) :
    (renderHud text s).idleTimer = s.idleTimer := by
  obtain ⟨h, e⟩ := renderHud_eq text s
  rw [e]

@[simp] theorem renderHud_confettiPieces (text : String) (s : State K) :
    (renderHud text s).confettiPieces = s.confettiPieces := by
  obtain ⟨h, e⟩ := renderHud_eq text s
  rw [e]

@[simp] theorem renderHud_obstacle1X (text : String) (s : State K) :
    (renderHud text s).obstacle1X = s.obstacle1X := by
  obtain ⟨h, e⟩ := renderHud_eq text s
  rw [e]

@[simp] theorem renderHud_obstacle2X (text : String) (s : State K) :
    (renderHud text s).obstacle2X = s.obstacle2X := by
  obtain ⟨h, e⟩ := renderHud_eq text s
  rw [e]

@[simp] theorem renderHud_obstacleTime (text : String) (s : State K) :
    (renderHud text s).obstacleTime = s.obstacleTime := by
  obtain ⟨h, e⟩ := renderHud_eq text s
  rw [e]

@[simp] theorem renderHud_tiltX (text : String) (s : State K) :
    (renderHud text s).tiltX = s.tiltX := by
  obtain ⟨h, e⟩ := renderHud_eq text s
  rw [e]

@[simp] theorem renderHud_tiltZ (text : String) (s : State K) :
    (renderHud text s).tiltZ = s.tiltZ := by
  obtain ⟨h, e⟩ := renderHud_eq text s
  rw [e]

@[simp] theorem renderHud_hasCtx (text : String) (s : State K) :
    (renderHud text s).hasCtx = s.hasCtx := by
  obtain ⟨h, e⟩ := renderHud_eq text s
  rw [e]

@[simp] theorem renderHud_messageTimeout (text : String) (s : State K) :
    (renderHud text s).messageTimeout = s.messageTimeout := by
  obtain ⟨h, e⟩ := renderHud_eq text s
  rw [e]

theorem showMessage_eq (text : String) (d : K) (s : State K) :
    ∃ h m, showMessage text d s = { s with hud := h, messageTimeout := m } := by
  unfold showMessage renderHud
  cases s
  simp only
  split_ifs <;> exact ⟨_, _, rfl⟩

@[simp] theorem showMessage_score (text : String) (d : K) (s : State K) :
    (showMessage text d s).score = s.score := by
  obtain ⟨h, m, e⟩ := showMessage_eq text d s
  rw [e]

@[simp] theorem showMessage_bestScore (text : String) (d : K) (s : State K) :
    (showMessage text d s).bestScore = s.bestScore := by
  obtain ⟨h, m, e⟩ := showMessage_eq text d s
  rw [e]

@[simp] theorem showMessage_streak (text : String) (d : K) (s : State K) :
    (showMessage text d s).streak = s.streak := by
  obtain ⟨h, m, e⟩ := showMessage_eq text d s
  rw [e]

@[simp] theorem showMessage_ball (text : String) (d : K) (s : State K) :
    (showMessage text d s).ball = s.ball := by
  obtain ⟨h, m, e⟩ := showMessage_eq text d s
  rw [e]

@[simp] theorem showMessage_striker (text : String) (d : K) (s : State K) :
    (showMessage text d s).striker = s.striker := by
  obtain ⟨h, m, e⟩ := showMessage_eq text d s
  rw [e]

@[simp] theorem showMessage_vx (text : String) (d : K) (s : State K) :
    (showMessage text d s).vx = s.vx := by
  obtain ⟨h, m, e⟩ := showMessage_eq text d s
  rw [e]

@[simp] theorem showMessage_vz (text : String) (d : K) (s : State K) :
    (showMessage text d s).vz = s.vz := by
  obtain ⟨h, m, e⟩ := showMessage_eq text d s
  rw [e]

@[simp] theorem showMessage_lastOutcomeTime (text : String) (d : K) (s : State K) :
    (showMessage text d s).lastOutcomeTime = s.lastOutcomeTime := by
  obtain ⟨h, m, e⟩ := showMessage_eq text d s
  rw [e]

@[simp] theorem showMessage_lastTime (text : String) (d : K) (s : State K) :
    (showMessage text d s).lastTime = s.lastTime := by
  obtain ⟨h, m, e⟩ := showMessage_eq text d s
  rw [e]

@[simp] theorem showMessage_idleTimer (text : String) (d : K) (s : State K) :
    (showMessage text d s).idleTimer = s.idleTimer := by
  obtain ⟨h, m, e⟩ := showMessage_eq text d s
  rw [e]

@[simp] theorem showMessage_confettiPieces (text : String) (d : K) (s : State K) :
    (showMessage text d s).confettiPieces = s.confettiPieces := by
  obtain ⟨h, m, e⟩ := showMessage_eq text d s
  rw [e]

@[simp] theorem showMessage_obstacle1X (text : String) (d : K) (s : State K) :
    (showMessage text d s).obstacle1X = s.obstacle1X := by
  obtain ⟨h, m, e⟩ := showMessage_eq text d s
  rw [e]

@[simp] theorem showMessage_obstacle2X (text : String) (d : K) (s : State K) :
    (showMessage text d s).obstacle2X = s.obstacle2X := by
  obtain ⟨h, m, e⟩ := showMessage_eq text d s
  rw [e]

@[simp] theorem showMessage_obstacleTime (text : String) (d : K) (s : State K) :
    (showMessage text d s).obstacleTime = s.obstacleTime := by
  obtain ⟨h, m, e⟩ := showMessage_eq text d s
  rw [e]

@[simp] theorem showMessage_tiltX (text : String) (d : K) (s : State K) :
    (showMessage text d s).tiltX = s.tiltX := by
  obtain ⟨h, m, e⟩ := showMessage_eq text d s
  rw [e]

@[simp] theorem showMessage_tiltZ (text : String) (d : K) (s : State K) :
    (showMessage text d s).tiltZ = s.tiltZ := by
  obtain ⟨h, m, e⟩ := showMessage_eq text d s
  rw [e]

@[simp] theorem showMessage_hasCtx (text : String) (d : K) (s : State K) :
    (showMessage text d s).hasCtx = s.hasCtx := by
  obtain ⟨h, m, e⟩ := showMessage_eq text d s
  rw [e]

/-- C1. When the cooldown has elapsed and the ball lies in the goal band,
`handleGoalOrMiss` adds one to `score` and `streak`, sets `bestScore` to the
maximum of its old value and the new score, stores `nowMs` in
`lastOutcomeTime`, and puts ball and striker back to their start positions with
zero ball velocity. -/
theorem handleGoalOrMiss_goal (random : Nat → K) (nowMs : K) (s : State K)
    (hcool : nowMs - s.lastOutcomeTime ≥ 800)
    (hzmin : (-2.0 : K) ≤ s.ball.z) (hzmax : s.ball.z ≤ -1.75) (hx : |s.ball.x| ≤ 0.4) :
    (handleGoalOrMiss random nowMs s).score = s.score + 1 ∧
    (handleGoalOrMiss random nowMs s).streak = s.streak + 1 ∧
    (handleGoalOrMiss random nowMs s).bestScore = max s.bestScore (s.score + 1) ∧
    (handleGoalOrMiss random nowMs s).lastOutcomeTime = nowMs ∧
    (handleGoalOrMiss random nowMs s).ball = ⟨-0.63, 0.06, 1.88⟩ ∧
    (handleGoalOrMiss random nowMs s).vx = 0 ∧
    (handleGoalOrMiss random nowMs s).vz = 0 ∧
    (handleGoalOrMiss random nowMs s).striker = ⟨0, 0.02, 1.4⟩ := by
  have h1 : ¬ (nowMs - s.lastOutcomeTime < OUTCOME_COOLDOWN_MS) := by
    simp only [OUTCOME_COOLDOWN_MS, not_lt]; exact hcool
  have h2 : ¬ (s.ball.z > goalZBandMax + 0.02) := by
    simp only [goalZBandMax, fieldHeight, goalDepth, not_lt, gt_iff_lt]
    norm_num at hzmax ⊢; linarith
  have h3 : goalZBandMin ≤ s.ball.z := by
    simp only [goalZBandMin, fieldHeight]; norm_num at hzmin ⊢; linarith
  have h4 : s.ball.z ≤ goalZBandMax := by
    simp only [goalZBandMax, fieldHeight, goalDepth]; norm_num at hzmax ⊢; linarith
  have h5 : |s.ball.x| ≤ goalXHalf := by
    simp only [goalXHalf, goalWidth]; norm_num at hx ⊢; linarith
  unfold handleGoalOrMiss
  simp only [h1, h2, h3, h4, h5, if_false, ge_iff_le, decide_True, Bool.and_self, if_true]
  simp only [showMessage_score, showMessage_streak, showMessage_bestScore,
    showMessage_lastOutcomeTime, showMessage_ball, showMessage_vx, showMessage_vz,
    showMessage_striker, spawnGoalConfetti, resetStriker, resetBall]
  refine ⟨?_, ?_, ?_, ?_, ?_, ?_, ?_, ?_⟩
  · split_ifs <;> rfl
  · split_ifs <;> rfl
  · split_ifs with h
    · exact (max_eq_right (le_of_lt h)).symm
    · exact (max_eq_left (not_lt.mp h)).symm
  · split_ifs <;> rfl
  · simp only [fieldWidth, fieldHeight, ballRadius]; norm_num
  · trivial
  · trivial
  · simp only [fieldHeight, strikerHeight]; norm_num

/-- An instance of C1: the ball at `(0, -1.8)` one second after start. -/
theorem handleGoalOrMiss_goal_witness :
    (handleGoalOrMiss (fun _ => 1 / 2) 1000 (ballAt 0 (-1.8))).score = 1 ∧
    (handleGoalOrMiss (fun _ => 1 / 2) 1000 (ballAt 0 (-1.8))).ball = ⟨-0.63, 0.06, 1.88⟩ := by
  have h := handleGoalOrMiss_goal (fun _ => (1 / 2 : ℚ)) 1000 (ballAt 0 (-1.8))
    (by norm_num [ballAt, initState])
    (by norm_num [ballAt]) (by norm_num [ballAt]) (by norm_num [ballAt])
  refine ⟨?_, h.2.2.2.2.1⟩
  rw [h.1]
  simp [ballAt, initState]

/-- C2. When the cooldown has elapsed, the ball is in the back zone and outside
the goal width, `handleGoalOrMiss` sets `streak` to zero, keeps `score` and
`bestScore`, stores `nowMs` in `lastOutcomeTime`, and puts ball and striker back
to their start positions with zero ball velocity. -/
theorem handleGoalOrMiss_miss (random : Nat → K) (nowMs : K) (s : State K)
    (hcool : nowMs - s.lastOutcomeTime ≥ 800)
    (hz : s.ball.z ≤ -1.73) (hx : |s.ball.x| > 0.4) :
    (handleGoalOrMiss random nowMs s).streak = 0 ∧
    (handleGoalOrMiss random nowMs s).score = s.score ∧
    (handleGoalOrMiss random nowMs s).bestScore = s.bestScore ∧
    (handleGoalOrMiss random nowMs s).lastOutcomeTime = nowMs ∧
    (handleGoalOrMiss random nowMs s).ball = ⟨-0.63, 0.06, 1.88⟩ ∧
    (handleGoalOrMiss random nowMs s).vx = 0 ∧
    (handleGoalOrMiss random nowMs s).vz = 0 ∧
    (handleGoalOrMiss random nowMs s).striker = ⟨0, 0.02, 1.4⟩ := by
  have h1 : ¬ (nowMs - s.lastOutcomeTime < OUTCOME_COOLDOWN_MS) := by
    simp only [OUTCOME_COOLDOWN_MS, not_lt]; exact hcool
  have h2 : ¬ (s.ball.z > goalZBandMax + 0.02) := by
    simp only [goalZBandMax, fieldHeight, goalDepth, not_lt, gt_iff_lt]
    norm_num at hz ⊢; linarith
  have h5 : ¬ (|s.ball.x| ≤ goalXHalf) := by
    simp only [goalXHalf, goalWidth, not_le]; norm_num at hx ⊢; linarith
  unfold handleGoalOrMiss
  simp only [h1, h2, h5, if_false, decide_False, Bool.and_false, Bool.not_false, if_true,
    Bool.false_eq_true]
  simp only [showMessage_score, showMessage_streak, showMessage_bestScore,
    showMessage_lastOutcomeTime, showMessage_ball, showMessage_vx, showMessage_vz,
    showMessage_striker, resetStriker, resetBall]
  refine ⟨trivial, trivial, trivial, trivial, ?_, trivial, trivial, ?_⟩
  · simp only [fieldWidth, fieldHeight, ballRadius]; norm_num
  · simp only [fieldHeight, strikerHeight]; norm_num

/-- An instance of C2: the ball at `(0.5, -1.8)` one second after start. -/
theorem handleGoalOrMiss_miss_witness :
    (handleGoalOrMiss (fun _ => 1 / 2) 1000 (ballAt 0.5 (-1.8))).streak = 0 ∧
    (handleGoalOrMiss (fun _ => 1 / 2) 1000 (ballAt 0.5 (-1.8))).lastOutcomeTime = 1000 :=
  have h := handleGoalOrMiss_miss (fun _ => (1 / 2 : ℚ)) 1000 (ballAt 0.5 (-1.8))
    (by norm_num [ballAt, initState])
    (by norm_num [ballAt]) (by norm_num [ballAt, abs_of_pos])
  ⟨h.1, h.2.2.2.1⟩

/-! ## Cooldown -/

theorem handleGoalOrMiss_cooldown (random : Nat → K) (nowMs : K) (s : State K)
    (h : nowMs - s.lastOutcomeTime < 800) : handleGoalOrMiss random nowMs s = s := by
  unfold handleGoalOrMiss
  rw [if_pos (by simpa only [OUTCOME_COOLDOWN_MS] using h)]

theorem handleGoalOrMiss_lastOutcomeTime (random : Nat → K) (nowMs : K) (s : State K) :
    (handleGoalOrMiss random nowMs s).lastOutcomeTime = s.lastOutcomeTime ∨
    ((handleGoalOrMiss random nowMs s).lastOutcomeTime = nowMs ∧
      s.lastOutcomeTime + 800 ≤ nowMs) := by
  by_cases h : nowMs - s.lastOutcomeTime < 800
  · left; rw [handleGoalOrMiss_cooldown random nowMs s h]
  · have h8 : s.lastOutcomeTime + 800 ≤ nowMs := by linarith [not_lt.mp h]
    unfold handleGoalOrMiss
    simp only [OUTCOME_COOLDOWN_MS, h, if_false]
    split_ifs <;>
      first
      | exact Or.inl rfl
      | exact Or.inr ⟨by simp only [showMessage_lastOutcomeTime, spawnGoalConfetti,
          resetStriker, resetBall], h8⟩

theorem outcomeTimes_ge (calls : List (GoalCheck K)) :
    ∀ (last : K), ∀ t ∈ outcomeTimes last calls, last + 800 ≤ t := by
  induction calls with
  | nil => intro last t ht; simp [outcomeTimes] at ht
  | cons c rest ih =>
    intro last t ht
    simp only [outcomeTimes] at ht
    rcases handleGoalOrMiss_lastOutcomeTime c.random c.nowMs
      { c.pre with lastOutcomeTime := last } with h | ⟨h, h8⟩
    · rw [if_pos h] at ht
      exact ih last t ht
    · simp only at h h8
      split_ifs at ht with hl
      · exact ih last t ht
      · rw [h] at ht
        rcases List.mem_cons.mp ht with rfl | ht
        · exact h8
        · have := ih c.nowMs t ht
          linarith

theorem outcomeTimes_pairwise (calls : List (GoalCheck K)) :
    ∀ (last : K), (outcomeTimes last calls).Pairwise (fun a b => a + 800 ≤ b) := by
  induction calls with
  | nil => intro last; simp [outcomeTimes]
  | cons c rest ih =>
    intro last
    simp only [outcomeTimes]
    split_ifs with hl
    · exact ih last
    · refine List.pairwise_cons.mpr ⟨fun t ht => ?_, ih _⟩
      rcases handleGoalOrMiss_lastOutcomeTime c.random c.nowMs
        { c.pre with lastOutcomeTime := last } with h | ⟨h, _⟩
      · exact absurd h hl
      · rw [h] at ht
        exact outcomeTimes_ge rest _ t ht

/-- C3. Within the cooldown (`nowMs - lastOutcomeTime < 800`) `handleGoalOrMiss`
returns the state unchanged, so none of `score`, `streak`, `bestScore`,
`lastOutcomeTime`, ball and striker changes; and in any sequence of calls with
non-decreasing clock values, any two calls that record an outcome have clock
values at least 800 ms apart. -/
theorem cooldown_prevents_double_trigger (random : Nat → K) (nowMs : K) (s : State K)
    (last : K) (calls : List (GoalCheck K))
    (hcool : nowMs - s.lastOutcomeTime < 800)
    (hmono : (calls.map GoalCheck.nowMs).Pairwise (fun a b => a ≤ b)) :
    handleGoalOrMiss random nowMs s = s ∧
    (outcomeTimes last calls).Pairwise (fun a b => a + 800 ≤ b) :=
  ⟨handleGoalOrMiss_cooldown random nowMs s hcool, outcomeTimes_pairwise calls last⟩

/-- An instance of C3: a goal at 1000 ms, a call in the goal band at 1500 ms
that is ignored, and a miss at 1800 ms. -/
theorem cooldown_prevents_double_trigger_witness :
    handleGoalOrMiss (fun _ => 1 / 2) 500 (ballAt 0 (-1.8)) = ballAt 0 (-1.8) ∧
    outcomeTimes (0 : ℚ)
      [⟨1000, fun _ => 1 / 2, ballAt 0 (-1.8)⟩, ⟨1500, fun _ => 1 / 2, ballAt 0 (-1.8)⟩,
       ⟨1800, fun _ => 1 / 2, ballAt 0.5 (-1.8)⟩] = [1000, 1800] ∧
    ([1000, 1800] : List ℚ).Pairwise (fun a b => a + 800 ≤ b) := by
  have h := cooldown_prevents_double_trigger (fun _ => (1 / 2 : ℚ)) 500 (ballAt 0 (-1.8)) 0
    [⟨1000, fun _ => 1 / 2, ballAt 0 (-1.8)⟩, ⟨1500, fun _ => 1 / 2, ballAt 0 (-1.8)⟩,
     ⟨1800, fun _ => 1 / 2, ballAt 0.5 (-1.8)⟩]
    (by norm_num [ballAt, initState]) (by norm_num)
  have e : outcomeTimes (0 : ℚ)
      [⟨1000, fun _ => 1 / 2, ballAt 0 (-1.8)⟩, ⟨1500, fun _ => 1 / 2, ballAt 0 (-1.8)⟩,
       ⟨1800, fun _ => 1 / 2, ballAt 0.5 (-1.8)⟩] = [1000, 1800] := by
    norm_num [outcomeTimes, handleGoalOrMiss, ballAt, initState, OUTCOME_COOLDOWN_MS,
      goalZBandMax, goalZBandMin, goalXHalf, fieldHeight, goalDepth, goalWidth,
      spawnGoalConfetti, resetStriker, resetBall, abs_of_pos]
  exact ⟨h.1, e, e ▸ h.2⟩

/-! ## Striker bounds -/

theorem clampStrikerInsideField_bounds (s : State K) :
    (-0.475 : K) ≤ (clampStrikerInsideField s).striker.x ∧
    (clampStrikerInsideField s).striker.x ≤ 0.475 ∧
    0 ≤ (clampStrikerInsideField s).striker.z ∧
    (clampStrikerInsideField s).striker.z ≤ 1.665 ∧
    (clampStrikerInsideField s).striker.y = 0.02 := by
  simp only [clampStrikerInsideField, fieldWidth, fieldHeight, strikerHalfW, strikerHalfD,
    strikerWidth, strikerDepth, strikerHeight]
  refine ⟨?_, ?_, ?_, ?_, ?_⟩
  · split_ifs <;> norm_num at * <;> linarith
  · split_ifs <;> norm_num at * <;> linarith
  · split_ifs <;> norm_num at * <;> linarith
  · split_ifs <;> norm_num at * <;> linarith
  · norm_num

theorem clampStrikerInsideField_fixed (t : State K)
    (hx1 : (-0.475 : K) ≤ t.striker.x) (hx2 : t.striker.x ≤ 0.475)
    (hz1 : 0 ≤ t.striker.z) (hz2 : t.striker.z ≤ 1.665) (hy : t.striker.y = 0.02) :
    clampStrikerInsideField t = t := by
  obtain ⟨hasCtx, hud, mt, score, best, streak, rx, rz, ball, ⟨x, y, z⟩, o1, o2, ot, tx, tz,
    vx, vz, lt, lo, idle, cs⟩ := t
  simp only at hx1 hx2 hz1 hz2 hy
  have e1 : ¬ (x < -fieldWidth / 2 + strikerHalfW + 0.1) := by
    simp only [fieldWidth, strikerHalfW, strikerWidth, not_lt]; norm_num at hx1 ⊢; linarith
  have e2 : ¬ (x > fieldWidth / 2 - strikerHalfW - 0.1) := by
    simp only [fieldWidth, strikerHalfW, strikerWidth, not_lt, gt_iff_lt]
    norm_num at hx2 ⊢; linarith
  have e3 : ¬ (z < 0) := not_lt.mpr hz1
  have e4 : ¬ (z > fieldHeight / 2 - strikerHalfD - 0.3) := by
    simp only [fieldHeight, strikerHalfD, strikerDepth, not_lt, gt_iff_lt]
    norm_num at hz2 ⊢; linarith
  have e5 : (strikerHeight / 2 : K) = y := by
    rw [hy]; simp only [strikerHeight]; norm_num
  simp only [clampStrikerInsideField, e1, e2, e3, e4, e5, if_false]

theorem clampStrikerInsideField_idem (s : State K) :
    clampStrikerInsideField (clampStrikerInsideField s) = clampStrikerInsideField s := by
  obtain ⟨h1, h2, h3, h4, h5⟩ := clampStrikerInsideField_bounds s
  exact clampStrikerInsideField_fixed _ h1 h2 h3 h4 h5

/-- The start position of the striker, written by `resetStriker`. -/
theorem resetStriker_striker (s : State K) :
    (resetStriker s).striker = ⟨0, 0.02, 1.4⟩ := by
  simp only [resetStriker, fieldHeight, strikerHeight]; norm_num

theorem handleStrikerCollision_striker (E : MathEnv K) (s : State K) :
    (handleStrikerCollision E s).striker = s.striker := by
  unfold handleStrikerCollision
  simp only
  split_ifs <;> rfl

theorem handleObstacleCollision_striker (E : MathEnv K) (o : Vec3 K) (s : State K) :
    (handleObstacleCollision E o s).striker = s.striker := by
  unfold handleObstacleCollision
  simp only
  split_ifs <;> rfl

theorem clampBounce_striker (s : State K) : (clampBounce s).striker = s.striker := by
  unfold clampBounce
  simp only
  split_ifs <;> rfl

theorem handleGoalOrMiss_striker (random : Nat → K) (nowMs : K) (s : State K) :
    (handleGoalOrMiss random nowMs s).striker = s.striker ∨
    (handleGoalOrMiss random nowMs s).striker = ⟨0, 0.02, 1.4⟩ := by
  unfold handleGoalOrMiss
  simp only
  split_ifs <;>
    first
    | exact Or.inl rfl
    | exact Or.inr (by simp only [showMessage_striker, spawnGoalConfetti]
                       exact resetStriker_striker _)

theorem autoReset_striker (dt : K) (s : State K) :
    (autoReset dt s).striker = s.striker ∨ (autoReset dt s).striker = ⟨0, 0.02, 1.4⟩ := by
  unfold autoReset
  simp only
  split_ifs <;>
    first
    | exact Or.inl rfl
    | exact Or.inr (by simp only [showMessage_striker]
                       exact resetStriker_striker _)

/-- The striker after a frame is the clamped one or the start position. -/
theorem step_striker (E : MathEnv K) (inp : FrameInput K) (s : State K) :
    ∃ s0 : State K, (step E inp s).striker = (clampStrikerInsideField s0).striker ∨
      (step E inp s).striker = ⟨0, 0.02, 1.4⟩ := by
  refine ⟨applyStrikerInput E (readXRThumbsticks E inp.xr) inp.strikerKeys
    (min 0.05 ((inp.now - s.lastTime) / 1000))
    (applyTiltInput (readXRThumbsticks E inp.xr) inp.tiltKeys
      { s with lastTime := inp.now }), ?_⟩
  unfold step
  simp only
  have hu : ∀ (dt : K) (t : State K), (updateConfetti dt t).striker = t.striker :=
    fun _ _ => rfl
  rw [hu]
  rcases autoReset_striker (min 0.05 ((inp.now - s.lastTime) / 1000))
    (handleGoalOrMiss inp.random inp.nowMs _) with h | h
  · rw [h]
    rcases handleGoalOrMiss_striker inp.random inp.nowMs _ with h | h
    · rw [h, handleObstacleCollision_striker, handleObstacleCollision_striker,
        handleStrikerCollision_striker]
      left
      have hm : ∀ (dt : K) (t : State K), (moveDefenders E dt t).striker = t.striker :=
        fun _ _ => rfl
      rw [hm, clampBounce_striker]
      rfl
    · exact Or.inr h
  · exact Or.inr h

/-- C4. After one execution of `step`, from any state with any input, the
striker satisfies `-0.475 ≤ x ≤ 0.475`, `0 ≤ z ≤ 1.665` and `y = 0.02` (also
when a goal, a miss or the idle reset puts it back to `(0, 0.02, 1.4)`), and
`clampStrikerInsideField` is idempotent. -/
theorem step_striker_in_bounds (E : MathEnv K) (inp : FrameInput K) (s : State K) :
    ((-0.475 : K) ≤ (step E inp s).striker.x ∧ (step E inp s).striker.x ≤ 0.475 ∧
      0 ≤ (step E inp s).striker.z ∧ (step E inp s).striker.z ≤ 1.665 ∧
      (step E inp s).striker.y = 0.02) ∧
    clampStrikerInsideField (clampStrikerInsideField s) = clampStrikerInsideField s := by
  refine ⟨?_, clampStrikerInsideField_idem s⟩
  obtain ⟨s0, h | h⟩ := step_striker E inp s
  · rw [h]; exact clampStrikerInsideField_bounds s0
  · rw [h]; norm_num

/-! ## Confetti -/

theorem updateConfettiLoop_append (dt : K) (pre : List (Confetti K)) :
    ∀ post : List (Confetti K),
      updateConfettiLoop dt pre.length (pre ++ post) =
        (pre.map (updatePiece dt)).filter (fun c => decide (0 < c.life ∧ 0 ≤ c.pos.y)) ++ post := by
  induction pre using List.reverseRecOn with
  | nil => intro post; rfl
  | append_singleton pre c ih =>
    intro post
    have hlen : (pre ++ [c]).length = pre.length + 1 := by simp
    have hget : (pre ++ [c] ++ post)[pre.length]? = some c := by
      rw [List.append_assoc, List.getElem?_append_right (le_refl _)]
      simp
    rw [hlen]
    simp only [updateConfettiLoop, hget]
    have hset : (pre ++ [c] ++ post).set pre.length (updatePiece dt c) =
        pre ++ updatePiece dt c :: post := by
      rw [List.append_assoc, List.set_append_right _ _ (le_refl _)]
      simp
    have herase : (pre ++ updatePiece dt c :: post).eraseIdx pre.length = pre ++ post := by
      rw [List.eraseIdx_append_of_length_le (le_refl _)]
      simp
    rw [hset, herase]
    split_ifs with h
    · rw [ih post]
      have : ¬ (0 < (updatePiece dt c).life ∧ 0 ≤ (updatePiece dt c).pos.y) := by
        rintro ⟨h1, h2⟩
        rcases h with h | h
        · exact absurd h1 (not_lt.mpr h)
        · exact absurd h2 (not_le.mpr h)
      simp [List.filter_append, this]
    · rw [ih (updatePiece dt c :: post)]
      have : (0 < (updatePiece dt c).life ∧ 0 ≤ (updatePiece dt c).pos.y) := by
        push_neg at h
        exact h
      simp [List.filter_append, this]

/-- C5. The function `updateConfetti(dt)` updates every piece once
(`vy' = vy - 3.5 dt`, `y' = y + vy' dt`, `life' = life - dt`) and leaves exactly
the updated pieces with `life' > 0` and `y' ≥ 0`, in their original order. -/
theorem updateConfetti_spec (dt : K) (s : State K) :
    (updateConfetti dt s).confettiPieces =
      (s.confettiPieces.map (updatePiece dt)).filter
        (fun c => decide (0 < c.life ∧ 0 ≤ c.pos.y)) ∧
    ∀ c : Confetti K,
      (updatePiece dt c).vy = c.vy - 3.5 * dt ∧
      (updatePiece dt c).pos.y = c.pos.y + (c.vy - 3.5 * dt) * dt ∧
      (updatePiece dt c).life = c.life - dt := by
  refine ⟨?_, fun c => ⟨rfl, rfl, rfl⟩⟩
  have h := updateConfettiLoop_append dt s.confettiPieces []
  simp only [List.append_nil] at h
  exact h

/-! ## Score counters -/

theorem SameScores.trans {a b c : State K} (h1 : SameScores a b) (h2 : SameScores b c) :
    SameScores a c :=
  ⟨h1.1.trans h2.1, h1.2.1.trans h2.2.1, h1.2.2.1.trans h2.2.2.1, h1.2.2.2.1.trans h2.2.2.2.1,
    h1.2.2.2.2.trans h2.2.2.2.2⟩

theorem SameScores.inv {a b : State K} (h : SameScores a b) (hb : ScoreInv b) : ScoreInv a := by
  obtain ⟨h1, h2, h3, h4, _⟩ := h
  unfold ScoreInv
  rw [h1, h2, h3, h4]
  exact hb

theorem applyTiltInput_same (sticks : Thumbsticks K) (keys : Keys) (s : State K) :
    SameScores (applyTiltInput sticks keys s) s := by
  unfold applyTiltInput
  split <;> exact ⟨rfl, rfl, rfl, rfl, rfl⟩

theorem applyStrikerInput_same (E : MathEnv K) (sticks : Thumbsticks K) (keys : Keys) (dt : K)
    (s : State K) : SameScores (applyStrikerInput E sticks keys dt s) s := by
  unfold applyStrikerInput
  split
  · exact ⟨rfl, rfl, rfl, rfl, rfl⟩
  · unfold updateStrikerFromKeys
    simp only
    split_ifs <;> exact ⟨rfl, rfl, rfl, rfl, rfl⟩

theorem clampBounce_same (s : State K) : SameScores (clampBounce s) s := by
  unfold clampBounce
  simp only
  split_ifs <;> exact ⟨rfl, rfl, rfl, rfl, rfl⟩

theorem handleStrikerCollision_same (E : MathEnv K) (s : State K) :
    SameScores (handleStrikerCollision E s) s := by
  unfold handleStrikerCollision
  simp only
  split_ifs <;> exact ⟨rfl, rfl, rfl, rfl, rfl⟩

theorem handleObstacleCollision_same (E : MathEnv K) (o : Vec3 K) (s : State K) :
    SameScores (handleObstacleCollision E o s) s := by
  unfold handleObstacleCollision
  simp only
  split_ifs <;> exact ⟨rfl, rfl, rfl, rfl, rfl⟩

/-- The stages of `step` before `handleGoalOrMiss` do not touch the counters. -/
theorem step_before_goal (E : MathEnv K) (inp : FrameInput K) (s : State K) :
    ∃ s1 : State K, SameScores s1 s ∧
      step E inp s = updateConfetti (min 0.05 ((inp.now - s.lastTime) / 1000))
        (autoReset (min 0.05 ((inp.now - s.lastTime) / 1000))
          (handleGoalOrMiss inp.random inp.nowMs s1)) := by
  refine ⟨_, ?_, rfl⟩
  refine (handleObstacleCollision_same E _ _).trans ?_
  refine (handleObstacleCollision_same E _ _).trans ?_
  refine (handleStrikerCollision_same E _).trans ?_
  refine SameScores.trans (b := clampBounce _) ⟨rfl, rfl, rfl, rfl, rfl⟩ ?_
  refine (clampBounce_same _).trans ?_
  refine SameScores.trans (b := clampStrikerInsideField _) ⟨rfl, rfl, rfl, rfl, rfl⟩ ?_
  refine SameScores.trans (b := applyStrikerInput _ _ _ _ _) ⟨rfl, rfl, rfl, rfl, rfl⟩ ?_
  refine (applyStrikerInput_same E _ _ _ _).trans ?_
  refine (applyTiltInput_same _ _ _).trans ?_
  exact ⟨rfl, rfl, rfl, rfl, rfl⟩

theorem renderHud_inv (text : String) (s : State K) (h : ScoreInv s) :
    ScoreInv (renderHud text s) := by
  obtain ⟨h1, h2, h3⟩ := h
  unfold renderHud
  split_ifs
  · exact ⟨h1, h2, h3⟩
  · refine ⟨h1, h2, ?_⟩
    intro f hf
    simp only [Option.some.injEq] at hf
    rw [← hf]
    exact h1

theorem showMessage_hud (text : String) (d : K) (s : State K) :
    (showMessage text d s).hud = (renderHud text s).hud := by
  unfold showMessage renderHud
  cases s
  simp only
  split_ifs <;> rfl

theorem showMessage_inv (text : String) (d : K) (s : State K) (h : ScoreInv s) :
    ScoreInv (showMessage text d s) := by
  have hs : SameScores (showMessage text d s) (renderHud text s) :=
    ⟨by simp only [showMessage_score, renderHud_score],
     by simp only [showMessage_bestScore, renderHud_bestScore],
     by simp only [showMessage_streak, renderHud_streak],
     showMessage_hud text d s,
     by simp only [showMessage_hasCtx, renderHud_hasCtx]⟩
  exact hs.inv (renderHud_inv text s h)

theorem handleGoalOrMiss_inv (random : Nat → K) (nowMs : K) (s : State K) (h : ScoreInv s) :
    ScoreInv (handleGoalOrMiss random nowMs s) := by
  obtain ⟨h1, h2, h3⟩ := h
  unfold handleGoalOrMiss
  simp only
  split_ifs with c1 c2 c3 c4 c5
  · exact ⟨h1, h2, h3⟩
  · exact ⟨h1, h2, h3⟩
  · exact showMessage_inv _ _ _ ⟨rfl, Nat.succ_le_succ h2, h3⟩
  · exact absurd (h1 ▸ Nat.lt_succ_self s.score) c4
  · exact showMessage_inv _ _ _ ⟨h1, Nat.zero_le _, h3⟩
  · exact ⟨h1, h2, h3⟩

theorem autoReset_inv (dt : K) (s : State K) (h : ScoreInv s) : ScoreInv (autoReset dt s) := by
  obtain ⟨h1, h2, h3⟩ := h
  unfold autoReset
  simp only
  split_ifs
  · exact showMessage_inv _ _ _ ⟨h1, Nat.zero_le _, h3⟩
  · exact ⟨h1, h2, h3⟩
  · exact ⟨h1, h2, h3⟩

theorem handleGoalOrMiss_score_le (random : Nat → K) (nowMs : K) (s : State K) :
    s.score ≤ (handleGoalOrMiss random nowMs s).score := by
  unfold handleGoalOrMiss
  simp only
  split_ifs <;>
    first
    | exact le_refl _
    | (simp only [showMessage_score, spawnGoalConfetti, resetStriker, resetBall]
       exact Nat.le_succ _)
    | (simp only [showMessage_score, spawnGoalConfetti, resetStriker, resetBall]
       exact le_refl _)

theorem autoReset_score (dt : K) (s : State K) : (autoReset dt s).score = s.score := by
  unfold autoReset
  simp only
  split_ifs <;> first | rfl | simp only [showMessage_score, resetStriker, resetBall]

theorem step_inv (E : MathEnv K) (inp : FrameInput K) (s : State K) (h : ScoreInv s) :
    ScoreInv (step E inp s) := by
  obtain ⟨s1, hs, e⟩ := step_before_goal E inp s
  rw [e]
  have h1 := autoReset_inv (min 0.05 ((inp.now - s.lastTime) / 1000)) _
    (handleGoalOrMiss_inv inp.random inp.nowMs s1 (hs.inv h))
  exact h1

theorem step_score_le (E : MathEnv K) (inp : FrameInput K) (s : State K) :
    s.score ≤ (step E inp s).score := by
  obtain ⟨s1, hs, e⟩ := step_before_goal E inp s
  rw [e]
  have h1 : (updateConfetti (min 0.05 ((inp.now - s.lastTime) / 1000))
        (autoReset (min 0.05 ((inp.now - s.lastTime) / 1000))
          (handleGoalOrMiss inp.random inp.nowMs s1))).score =
      (autoReset (min 0.05 ((inp.now - s.lastTime) / 1000))
          (handleGoalOrMiss inp.random inp.nowMs s1)).score := rfl
  rw [h1, autoReset_score, ← hs.1]
  exact handleGoalOrMiss_score_le _ _ _

theorem applyEvent_inv (E : MathEnv K) (s : State K) (e : Event K) (h : ScoreInv s) :
    ScoreInv (applyEvent E s e) := by
  cases e with
  | frame inp => exact step_inv E inp s h
  | messageTimeout =>
    unfold applyEvent
    split_ifs
    · have := renderHud_inv "" s h
      exact this
    · exact h

theorem applyEvent_score_le (E : MathEnv K) (s : State K) (e : Event K) :
    s.score ≤ (applyEvent E s e).score := by
  cases e with
  | frame inp => exact step_score_le E inp s
  | messageTimeout =>
    unfold applyEvent
    split_ifs
    · unfold messageTimeoutFires
      simp only [renderHud_score, le_refl]
    · exact le_refl _

theorem initState_inv (E : MathEnv K) (hasCtx : Bool) (t0 : K) :
    ScoreInv (initState E hasCtx t0) := by
  unfold initState
  exact showMessage_inv _ _ _ (renderHud_inv _ _ ⟨rfl, le_refl _, fun f hf => by cases hf⟩)

theorem foldl_inv (E : MathEnv K) (events : List (Event K)) :
    ∀ s : State K, ScoreInv s → ScoreInv (events.foldl (applyEvent E) s) := by
  induction events with
  | nil => intro s h; exact h
  | cons e rest ih => intro s h; exact ih _ (applyEvent_inv E s e h)

/-- C10. In every state reached from the initial state by frames (and expiries
of the message timer), `bestScore = score` and `streak ≤ score`, the HUD last
drawn shows a `Best` equal to its `Score`, and no event decreases `score`, from
any state. -/
theorem score_counters_invariant (E : MathEnv K) (hasCtx : Bool) (t0 : K)
    (events : List (Event K)) :
    (run E hasCtx t0 events).bestScore = (run E hasCtx t0 events).score ∧
    (run E hasCtx t0 events).streak ≤ (run E hasCtx t0 events).score ∧
    (∀ f, (run E hasCtx t0 events).hud = some f → f.best = f.score) ∧
    (∀ e : Event K, (run E hasCtx t0 events).score ≤
      (applyEvent E (run E hasCtx t0 events) e).score) ∧
    (∀ s : State K, ∀ e : Event K, s.score ≤ (applyEvent E s e).score) := by
  obtain ⟨h1, h2, h3⟩ := foldl_inv E events _ (initState_inv E hasCtx t0)
  exact ⟨h1, h2, h3, fun e => applyEvent_score_le E _ e, fun s e => applyEvent_score_le E s e⟩

/-- An instance of C10 over `ℚ`: a frame one second after start, then the
expiry of the message timer. -/
theorem score_counters_invariant_witness :
    (run axisMath true 0 [Event.frame (idleInput 1000 1000), Event.messageTimeout]).bestScore =
      (run axisMath true 0 [Event.frame (idleInput 1000 1000), Event.messageTimeout]).score ∧
    ∀ f, (run axisMath true 0
        [Event.frame (idleInput 1000 1000), Event.messageTimeout]).hud = some f →
      f.best = f.score :=
  ⟨(score_counters_invariant axisMath true 0
      [Event.frame (idleInput 1000 1000), Event.messageTimeout]).1,
    (score_counters_invariant axisMath true 0
      [Event.frame (idleInput 1000 1000), Event.messageTimeout]).2.2.1⟩

/-! ## Collisions -/

theorem hypot_unique {E : MathEnv K} (hE : ExactHypot E) {x z r : K} (hr : 0 ≤ r)
    (h : r * r = x * x + z * z) : E.hypot x z = r :=
  (mul_self_inj_of_nonneg (hE x z).1 hr).mp ((hE x z).2.trans h.symm)

/-- The offset of the ball after the separation: `d` is the old distance and `m`
the target distance. -/
theorem separation_offset {dx d m : K} (hd : 0 < d) :
    dx + dx / d * (m - d) = m * (dx / d) := by
  field_simp
  ring

theorem unit_normal {dx dz d : K} (hd : 0 < d) (h : d * d = dx * dx + dz * dz) :
    dx / d * (dx / d) + dz / d * (dz / d) = 1 := by
  have hd' : d ≠ 0 := ne_of_gt hd
  field_simp
  linarith

theorem hypot_scaled {E : MathEnv K} (hE : ExactHypot E) {dx dz d m : K} (hd : 0 < d)
    (h : d * d = dx * dx + dz * dz) (hm : 0 ≤ m) :
    E.hypot (m * (dx / d)) (m * (dz / d)) = m := by
  apply hypot_unique hE hm
  have := unit_normal hd h
  calc m * m = m * m * (dx / d * (dx / d) + dz / d * (dz / d)) := by rw [this, mul_one]
    _ = m * (dx / d) * (m * (dx / d)) + m * (dz / d) * (m * (dz / d)) := by ring

theorem handleObstacleCollision_hit (E : MathEnv K) (o : Vec3 K) (s : State K)
    (h : 0 < E.hypot (s.ball.x - o.x) (s.ball.z - o.z) ∧
      E.hypot (s.ball.x - o.x) (s.ball.z - o.z) < 0.24) :
    (handleObstacleCollision E o s).ball.x - o.x =
        0.24 * ((s.ball.x - o.x) / E.hypot (s.ball.x - o.x) (s.ball.z - o.z)) ∧
    (handleObstacleCollision E o s).ball.z - o.z =
        0.24 * ((s.ball.z - o.z) / E.hypot (s.ball.x - o.x) (s.ball.z - o.z)) := by
  have hm : (ballRadius + 0.18 : K) = 0.24 := by simp only [ballRadius]; norm_num
  unfold handleObstacleCollision
  simp only [hm, gt_iff_lt, h, and_self, if_true]
  constructor
  · rw [← separation_offset h.1]; ring
  · rw [← separation_offset h.1]; ring

theorem handleObstacleCollision_miss (E : MathEnv K) (o : Vec3 K) (s : State K)
    (h : E.hypot (s.ball.x - o.x) (s.ball.z - o.z) = 0 ∨
      0.24 ≤ E.hypot (s.ball.x - o.x) (s.ball.z - o.z)) :
    handleObstacleCollision E o s = s := by
  have hm : (ballRadius + 0.18 : K) = 0.24 := by simp only [ballRadius]; norm_num
  unfold handleObstacleCollision
  simp only [hm, gt_iff_lt]
  rw [if_neg]
  rintro ⟨h1, h2⟩
  rcases h with h | h
  · exact absurd h (ne_of_gt h1)
  · exact absurd h2 (not_lt.mpr h)

theorem strikerMinDist : (ballRadius + max strikerHalfW strikerHalfD * 0.9 : K) = 0.2175 := by
  have : max (strikerHalfW : K) strikerHalfD = 0.175 := by
    simp only [strikerHalfW, strikerHalfD, strikerWidth, strikerDepth]
    rw [max_eq_left (by norm_num)]
    norm_num
  rw [this]
  simp only [ballRadius]
  norm_num

theorem handleStrikerCollision_hit (E : MathEnv K) (s : State K)
    (h : 0 < E.hypot (s.ball.x - s.striker.x) (s.ball.z - s.striker.z) ∧
      E.hypot (s.ball.x - s.striker.x) (s.ball.z - s.striker.z) < 0.2175) :
    (handleStrikerCollision E s).ball.x - s.striker.x =
        0.2175 * ((s.ball.x - s.striker.x) /
          E.hypot (s.ball.x - s.striker.x) (s.ball.z - s.striker.z)) ∧
    (handleStrikerCollision E s).ball.z - s.striker.z =
        0.2175 * ((s.ball.z - s.striker.z) /
          E.hypot (s.ball.x - s.striker.x) (s.ball.z - s.striker.z)) := by
  unfold handleStrikerCollision
  simp only [strikerMinDist, gt_iff_lt, h, and_self, if_true]
  constructor
  · rw [← separation_offset h.1]; ring
  · rw [← separation_offset h.1]; ring

theorem handleStrikerCollision_miss (E : MathEnv K) (s : State K)
    (h : E.hypot (s.ball.x - s.striker.x) (s.ball.z - s.striker.z) = 0 ∨
      0.2175 ≤ E.hypot (s.ball.x - s.striker.x) (s.ball.z - s.striker.z)) :
    handleStrikerCollision E s = s := by
  unfold handleStrikerCollision
  simp only [strikerMinDist, gt_iff_lt]
  rw [if_neg]
  rintro ⟨h1, h2⟩
  rcases h with h | h
  · exact absurd h (ne_of_gt h1)
  · exact absurd h2 (not_lt.mpr h)

/-- C6. With an exact `Math.hypot`: when `0 < dist < minDist`, after
`handleObstacleCollision` (`minDist = 0.24`) and after `handleStrikerCollision`
(`minDist = 0.2175`) the ball centre is at distance exactly `minDist` from the
other centre, along the direction `(dx, dz) / dist` it had before; when
`dist = 0` or `dist ≥ minDist` the state, so ball position and velocity, is
unchanged. -/
theorem positional_correction (E : MathEnv K) (hE : ExactHypot E) (o : Vec3 K) (s : State K) :
    (0 < E.hypot (s.ball.x - o.x) (s.ball.z - o.z) ∧
        E.hypot (s.ball.x - o.x) (s.ball.z - o.z) < 0.24 →
      E.hypot ((handleObstacleCollision E o s).ball.x - o.x)
          ((handleObstacleCollision E o s).ball.z - o.z) = 0.24 ∧
      (handleObstacleCollision E o s).ball.x - o.x =
        0.24 * ((s.ball.x - o.x) / E.hypot (s.ball.x - o.x) (s.ball.z - o.z)) ∧
      (handleObstacleCollision E o s).ball.z - o.z =
        0.24 * ((s.ball.z - o.z) / E.hypot (s.ball.x - o.x) (s.ball.z - o.z))) ∧
    (E.hypot (s.ball.x - o.x) (s.ball.z - o.z) = 0 ∨
        0.24 ≤ E.hypot (s.ball.x - o.x) (s.ball.z - o.z) →
      (handleObstacleCollision E o s).ball = s.ball ∧
      (handleObstacleCollision E o s).vx = s.vx ∧
      (handleObstacleCollision E o s).vz = s.vz) ∧
    (0 < E.hypot (s.ball.x - s.striker.x) (s.ball.z - s.striker.z) ∧
        E.hypot (s.ball.x - s.striker.x) (s.ball.z - s.striker.z) < 0.2175 →
      E.hypot ((handleStrikerCollision E s).ball.x - s.striker.x)
          ((handleStrikerCollision E s).ball.z - s.striker.z) = 0.2175 ∧
      (handleStrikerCollision E s).ball.x - s.striker.x =
        0.2175 * ((s.ball.x - s.striker.x) /
          E.hypot (s.ball.x - s.striker.x) (s.ball.z - s.striker.z)) ∧
      (handleStrikerCollision E s).ball.z - s.striker.z =
        0.2175 * ((s.ball.z - s.striker.z) /
          E.hypot (s.ball.x - s.striker.x) (s.ball.z - s.striker.z))) ∧
    (E.hypot (s.ball.x - s.striker.x) (s.ball.z - s.striker.z) = 0 ∨
        0.2175 ≤ E.hypot (s.ball.x - s.striker.x) (s.ball.z - s.striker.z) →
      (handleStrikerCollision E s).ball = s.ball ∧
      (handleStrikerCollision E s).vx = s.vx ∧
      (handleStrikerCollision E s).vz = s.vz) := by
  refine ⟨fun h => ?_, fun h => ?_, fun h => ?_, fun h => ?_⟩
  · obtain ⟨hx, hz⟩ := handleObstacleCollision_hit E o s h
    refine ⟨?_, hx, hz⟩
    rw [hx, hz]
    exact hypot_scaled hE h.1 (hE _ _).2 (by norm_num)
  · rw [handleObstacleCollision_miss E o s h]
    exact ⟨rfl, rfl, rfl⟩
  · obtain ⟨hx, hz⟩ := handleStrikerCollision_hit E s h
    refine ⟨?_, hx, hz⟩
    rw [hx, hz]
    exact hypot_scaled hE h.1 (hE _ _).2 (by norm_num)
  · rw [handleStrikerCollision_miss E s h]
    exact ⟨rfl, rfl, rfl⟩

theorem exactHypot_real :
    ExactHypot (⟨fun x z => √(x * x + z * z), Real.sin, Real.cos, Real.pi⟩ : MathEnv ℝ) := by
  intro x z
  exact ⟨Real.sqrt_nonneg _, Real.mul_self_sqrt (add_nonneg (mul_self_nonneg x) (mul_self_nonneg z))⟩

/-- An instance of C6 over `ℝ`: the ball 0.1 to the right of an obstacle at the
origin is moved to distance 0.24, a ball at distance 1 is left alone, and the
ball 0.1 to the right of the striker is moved to distance 0.2175. -/
theorem positional_correction_witness :
    ExactHypot (⟨fun x z => √(x * x + z * z), Real.sin, Real.cos, Real.pi⟩ : MathEnv ℝ) ∧
    (handleObstacleCollision ⟨fun x z => √(x * x + z * z), Real.sin, Real.cos, Real.pi⟩
      ⟨0, 0.025, 0⟩ (sampleState ⟨0.1, 0.06, 0⟩ ⟨0, 0.02, 1.4⟩ 0 0)).ball.x = 0.24 ∧
    (handleObstacleCollision ⟨fun x z => √(x * x + z * z), Real.sin, Real.cos, Real.pi⟩
      ⟨0, 0.025, 0⟩ (sampleState ⟨1, 0.06, 0⟩ ⟨0, 0.02, 1.4⟩ 0 0)).ball = ⟨1, 0.06, 0⟩ ∧
    (handleStrikerCollision ⟨fun x z => √(x * x + z * z), Real.sin, Real.cos, Real.pi⟩
      (sampleState ⟨0.1, 0.06, 1.4⟩ ⟨0, 0.02, 1.4⟩ 0 0)).ball.x = 0.2175 := by
  have hE := exactHypot_real
  have hd : (⟨fun x z => √(x * x + z * z), Real.sin, Real.cos, Real.pi⟩ : MathEnv ℝ).hypot
      ((sampleState (⟨0.1, 0.06, 0⟩ : Vec3 ℝ) ⟨0, 0.02, 1.4⟩ 0 0).ball.x -
        (⟨0, 0.025, 0⟩ : Vec3 ℝ).x)
      ((sampleState (⟨0.1, 0.06, 0⟩ : Vec3 ℝ) ⟨0, 0.02, 1.4⟩ 0 0).ball.z -
        (⟨0, 0.025, 0⟩ : Vec3 ℝ).z) = 0.1 :=
    hypot_unique hE (by norm_num) (by simp only [sampleState]; norm_num)
  have hd1 : (⟨fun x z => √(x * x + z * z), Real.sin, Real.cos, Real.pi⟩ : MathEnv ℝ).hypot
      ((sampleState (⟨1, 0.06, 0⟩ : Vec3 ℝ) ⟨0, 0.02, 1.4⟩ 0 0).ball.x -
        (⟨0, 0.025, 0⟩ : Vec3 ℝ).x)
      ((sampleState (⟨1, 0.06, 0⟩ : Vec3 ℝ) ⟨0, 0.02, 1.4⟩ 0 0).ball.z -
        (⟨0, 0.025, 0⟩ : Vec3 ℝ).z) = 1 :=
    hypot_unique hE (by norm_num) (by simp only [sampleState]; norm_num)
  have hd2 : (⟨fun x z => √(x * x + z * z), Real.sin, Real.cos, Real.pi⟩ : MathEnv ℝ).hypot
      ((sampleState (⟨0.1, 0.06, 1.4⟩ : Vec3 ℝ) ⟨0, 0.02, 1.4⟩ 0 0).ball.x -
        (sampleState (⟨0.1, 0.06, 1.4⟩ : Vec3 ℝ) ⟨0, 0.02, 1.4⟩ 0 0).striker.x)
      ((sampleState (⟨0.1, 0.06, 1.4⟩ : Vec3 ℝ) ⟨0, 0.02, 1.4⟩ 0 0).ball.z -
        (sampleState (⟨0.1, 0.06, 1.4⟩ : Vec3 ℝ) ⟨0, 0.02, 1.4⟩ 0 0).striker.z) = 0.1 :=
    hypot_unique hE (by norm_num) (by simp only [sampleState]; norm_num)
  have h1 := (positional_correction _ hE ⟨0, 0.025, 0⟩
    (sampleState ⟨0.1, 0.06, 0⟩ ⟨0, 0.02, 1.4⟩ 0 0)).1 (by rw [hd]; norm_num)
  have h2 := (positional_correction _ hE ⟨0, 0.025, 0⟩
    (sampleState ⟨1, 0.06, 0⟩ ⟨0, 0.02, 1.4⟩ 0 0)).2.1 (Or.inr (by rw [hd1]; norm_num))
  have h4 := (positional_correction _ hE ⟨0, 0.025, 0⟩
    (sampleState ⟨0.1, 0.06, 1.4⟩ ⟨0, 0.02, 1.4⟩ 0 0)).2.2.1 (by rw [hd2]; norm_num)
  refine ⟨hE, ?_, h2.1, ?_⟩
  · have h3 := h1.2.1
    rw [hd] at h3
    change _ - (0 : ℝ) = 0.24 * (((0.1 : ℝ) - 0) / 0.1) at h3
    rw [sub_zero] at h3
    rw [h3]
    norm_num
  · have h5 := h4.2.1
    rw [hd2] at h5
    change _ - (0 : ℝ) = 0.2175 * (((0.1 : ℝ) - 0) / 0.1) at h5
    rw [sub_zero] at h5
    rw [h5]
    norm_num

theorem handleObstacleCollision_velocity (E : MathEnv K) (o : Vec3 K) (s : State K)
    (h : 0 < E.hypot (s.ball.x - o.x) (s.ball.z - o.z) ∧
      E.hypot (s.ball.x - o.x) (s.ball.z - o.z) < 0.24) :
    (handleObstacleCollision E o s).vx =
      (if s.vx * ((s.ball.x - o.x) / E.hypot (s.ball.x - o.x) (s.ball.z - o.z)) +
          s.vz * ((s.ball.z - o.z) / E.hypot (s.ball.x - o.x) (s.ball.z - o.z)) < 0 then
        s.vx - 2 * (s.vx * ((s.ball.x - o.x) / E.hypot (s.ball.x - o.x) (s.ball.z - o.z)) +
          s.vz * ((s.ball.z - o.z) / E.hypot (s.ball.x - o.x) (s.ball.z - o.z))) *
          ((s.ball.x - o.x) / E.hypot (s.ball.x - o.x) (s.ball.z - o.z))
      else s.vx) ∧
    (handleObstacleCollision E o s).vz =
      (if s.vx * ((s.ball.x - o.x) / E.hypot (s.ball.x - o.x) (s.ball.z - o.z)) +
          s.vz * ((s.ball.z - o.z) / E.hypot (s.ball.x - o.x) (s.ball.z - o.z)) < 0 then
        s.vz - 2 * (s.vx * ((s.ball.x - o.x) / E.hypot (s.ball.x - o.x) (s.ball.z - o.z)) +
          s.vz * ((s.ball.z - o.z) / E.hypot (s.ball.x - o.x) (s.ball.z - o.z))) *
          ((s.ball.z - o.z) / E.hypot (s.ball.x - o.x) (s.ball.z - o.z))
      else s.vz) := by
  have hm : (ballRadius + 0.18 : K) = 0.24 := by simp only [ballRadius]; norm_num
  unfold handleObstacleCollision
  simp only [hm, gt_iff_lt, h, and_self, if_true]

/-- C7. With an exact `Math.hypot` and `0 < dist < minDist`, where
`n = (dx, dz) / dist`: `handleObstacleCollision` maps the velocity `v` to
`v - 2 (v·n) n` when `v·n < 0` and keeps it when `v·n ≥ 0`; so the squared speed
and the tangential component are unchanged and the normal component becomes
`|v·n| ≥ 0`. -/
theorem normal_reflection (E : MathEnv K) (hE : ExactHypot E) (o : Vec3 K) (s : State K)
    (dist nx nz dot : K)
    (hdist : dist = E.hypot (s.ball.x - o.x) (s.ball.z - o.z))
    (hnx : nx = (s.ball.x - o.x) / dist) (hnz : nz = (s.ball.z - o.z) / dist)
    (hdot : dot = s.vx * nx + s.vz * nz)
    (hpos : 0 < dist) (hlt : dist < 0.24) :
    (dot < 0 → (handleObstacleCollision E o s).vx = s.vx - 2 * dot * nx ∧
      (handleObstacleCollision E o s).vz = s.vz - 2 * dot * nz) ∧
    (0 ≤ dot → (handleObstacleCollision E o s).vx = s.vx ∧
      (handleObstacleCollision E o s).vz = s.vz) ∧
    (handleObstacleCollision E o s).vx * (handleObstacleCollision E o s).vx +
      (handleObstacleCollision E o s).vz * (handleObstacleCollision E o s).vz =
      s.vx * s.vx + s.vz * s.vz ∧
    (handleObstacleCollision E o s).vx * (-nz) + (handleObstacleCollision E o s).vz * nx =
      s.vx * (-nz) + s.vz * nx ∧
    (handleObstacleCollision E o s).vx * nx + (handleObstacleCollision E o s).vz * nz = |dot| ∧
    0 ≤ (handleObstacleCollision E o s).vx * nx + (handleObstacleCollision E o s).vz * nz := by
  have hunit : nx * nx + nz * nz = 1 := by
    rw [hnx, hnz]
    exact unit_normal hpos (by rw [hdist]; exact (hE _ _).2)
  obtain ⟨hvx, hvz⟩ := handleObstacleCollision_velocity E o s
    (by rw [← hdist]; exact ⟨hpos, hlt⟩)
  rw [← hdist, ← hnx, ← hnz, ← hdot] at hvx hvz
  by_cases hneg : dot < 0
  · rw [if_pos hneg] at hvx hvz
    rw [hvx, hvz]
    have hd2 : (s.vx - 2 * dot * nx) * nx + (s.vz - 2 * dot * nz) * nz = -dot := by
      have : (s.vx - 2 * dot * nx) * nx + (s.vz - 2 * dot * nz) * nz =
          (s.vx * nx + s.vz * nz) - 2 * dot * (nx * nx + nz * nz) := by ring
      rw [this, hunit, ← hdot]; ring
    refine ⟨fun _ => ⟨rfl, rfl⟩, fun h0 => absurd hneg (not_lt.mpr h0), ?_, by ring, ?_, ?_⟩
    · have : (s.vx - 2 * dot * nx) * (s.vx - 2 * dot * nx) +
          (s.vz - 2 * dot * nz) * (s.vz - 2 * dot * nz) =
          s.vx * s.vx + s.vz * s.vz - 4 * dot * (s.vx * nx + s.vz * nz) +
            4 * dot * dot * (nx * nx + nz * nz) := by ring
      rw [this, hunit, ← hdot]; ring
    · rw [hd2, abs_of_neg hneg]
    · rw [hd2]; linarith
  · rw [if_neg hneg] at hvx hvz
    rw [hvx, hvz]
    have h0 : 0 ≤ dot := not_lt.mp hneg
    refine ⟨fun h => absurd h hneg, fun _ => ⟨rfl, rfl⟩, rfl, rfl, ?_, ?_⟩
    · rw [← hdot, abs_of_nonneg h0]
    · rw [← hdot]; exact h0

/-- An instance of C7 over `ℝ`: the ball 0.1 to the right of an obstacle at the
origin with velocity `(-1, 2)` leaves with velocity `(1, 2)`. -/
theorem normal_reflection_witness :
    ExactHypot (⟨fun x z => √(x * x + z * z), Real.sin, Real.cos, Real.pi⟩ : MathEnv ℝ) ∧
    (handleObstacleCollision ⟨fun x z => √(x * x + z * z), Real.sin, Real.cos, Real.pi⟩
      ⟨0, 0.025, 0⟩ (sampleState ⟨0.1, 0.06, 0⟩ ⟨0, 0.02, 1.4⟩ (-1) 2)).vx = 1 ∧
    (handleObstacleCollision ⟨fun x z => √(x * x + z * z), Real.sin, Real.cos, Real.pi⟩
      ⟨0, 0.025, 0⟩ (sampleState ⟨0.1, 0.06, 0⟩ ⟨0, 0.02, 1.4⟩ (-1) 2)).vz = 2 := by
  have hE := exactHypot_real
  have hd : (0.1 : ℝ) =
      (⟨fun x z => √(x * x + z * z), Real.sin, Real.cos, Real.pi⟩ : MathEnv ℝ).hypot
      ((sampleState (⟨0.1, 0.06, 0⟩ : Vec3 ℝ) ⟨0, 0.02, 1.4⟩ (-1) 2).ball.x -
        (⟨0, 0.025, 0⟩ : Vec3 ℝ).x)
      ((sampleState (⟨0.1, 0.06, 0⟩ : Vec3 ℝ) ⟨0, 0.02, 1.4⟩ (-1) 2).ball.z -
        (⟨0, 0.025, 0⟩ : Vec3 ℝ).z) :=
    (hypot_unique hE (by norm_num) (by simp only [sampleState]; norm_num)).symm
  have h := (normal_reflection _ hE ⟨0, 0.025, 0⟩
    (sampleState ⟨0.1, 0.06, 0⟩ ⟨0, 0.02, 1.4⟩ (-1) 2) 0.1 1 0 (-1) hd
    (by simp only [sampleState]; norm_num) (by simp only [sampleState]; norm_num)
    (by simp only [sampleState]; norm_num) (by norm_num) (by norm_num)).1 (by norm_num)
  refine ⟨hE, ?_, ?_⟩
  · rw [h.1]; simp only [sampleState]; norm_num
  · rw [h.2]; simp only [sampleState]; norm_num

/-! ## Ball bounds and thumbsticks -/

theorem abs_le_hypot_left {E : MathEnv K} (hE : ExactHypot E) (x z : K) :
    |x| ≤ E.hypot x z := by
  obtain ⟨h0, h2⟩ := hE x z
  by_contra hc
  have h := mul_self_lt_mul_self h0 (not_le.mp hc)
  rw [abs_mul_abs_self] at h
  linarith [mul_self_nonneg z]

theorem abs_le_hypot_right {E : MathEnv K} (hE : ExactHypot E) (x z : K) :
    |z| ≤ E.hypot x z := by
  obtain ⟨h0, h2⟩ := hE x z
  by_contra hc
  have h := mul_self_lt_mul_self h0 (not_le.mp hc)
  rw [abs_mul_abs_self] at h
  linarith [mul_self_nonneg x]

/-- A component of the unit normal has absolute value at most one. -/
theorem abs_scaled_le {a d m : K} (hd : 0 < d) (ha : |a| ≤ d) (hm : 0 ≤ m) :
    |m * (a / d)| ≤ m := by
  rw [abs_mul, abs_of_nonneg hm, abs_div, abs_of_pos hd]
  have : |a| / d ≤ 1 := (div_le_one hd).mpr ha
  calc m * (|a| / d) ≤ m * 1 := mul_le_mul_of_nonneg_left this hm
    _ = m := mul_one m

theorem clampBounce_ball (s : State K) :
    |(clampBounce s).ball.x| ≤ 0.69 ∧ |(clampBounce s).ball.z| ≤ 1.94 := by
  have hW : (halfW : K) = 0.69 := by simp only [halfW, fieldWidth, ballRadius]; norm_num
  have hH : (halfH : K) = 1.94 := by simp only [halfH, fieldHeight, ballRadius]; norm_num
  unfold clampBounce
  simp only [hW, hH]
  constructor
  · split_ifs <;> simp only [abs_le] <;> norm_num at * <;> constructor <;> linarith
  · split_ifs <;> simp only [abs_le] <;> norm_num at * <;> constructor <;> linarith

theorem handleStrikerCollision_ball_bounds (E : MathEnv K) (hE : ExactHypot E) (s : State K)
    (hsx : |s.striker.x| ≤ 0.475) (hsz0 : 0 ≤ s.striker.z) (hsz1 : s.striker.z ≤ 1.665)
    (hx : |s.ball.x| ≤ 0.69) (hz : |s.ball.z| ≤ 1.94) :
    |(handleStrikerCollision E s).ball.x| ≤ 0.6925 ∧
    |(handleStrikerCollision E s).ball.z| ≤ 1.94 := by
  by_cases h : 0 < E.hypot (s.ball.x - s.striker.x) (s.ball.z - s.striker.z) ∧
      E.hypot (s.ball.x - s.striker.x) (s.ball.z - s.striker.z) < 0.2175
  · obtain ⟨ex, ez⟩ := handleStrikerCollision_hit E s h
    have bx := abs_scaled_le (m := (0.2175 : K)) h.1 (abs_le_hypot_left hE _ _) (by norm_num)
    have bz := abs_scaled_le (m := (0.2175 : K)) h.1 (abs_le_hypot_right hE _ _) (by norm_num)
    rw [← ex] at bx
    rw [← ez] at bz
    rw [abs_le] at bx bz hsx ⊢
    rw [abs_le]
    norm_num at *
    refine ⟨⟨?_, ?_⟩, ⟨?_, ?_⟩⟩ <;> linarith
  · rw [handleStrikerCollision_miss E s (by
      rcases not_and_or.mp h with h1 | h1
      · exact Or.inl (le_antisymm (not_lt.mp h1) (hE _ _).1)
      · exact Or.inr (not_lt.mp h1))]
    rw [abs_le] at hx ⊢
    norm_num at *
    exact ⟨⟨by linarith, by linarith⟩, hz⟩

theorem handleObstacleCollision_ball_bounds (E : MathEnv K) (hE : ExactHypot E) (o : Vec3 K)
    (s : State K) (hox : |o.x| ≤ 0.5) (hoz : |o.z| ≤ 0.4)
    (hx : |s.ball.x| ≤ 0.74) (hz : |s.ball.z| ≤ 1.94) :
    |(handleObstacleCollision E o s).ball.x| ≤ 0.74 ∧
    |(handleObstacleCollision E o s).ball.z| ≤ 1.94 := by
  by_cases h : 0 < E.hypot (s.ball.x - o.x) (s.ball.z - o.z) ∧
      E.hypot (s.ball.x - o.x) (s.ball.z - o.z) < 0.24
  · obtain ⟨ex, ez⟩ := handleObstacleCollision_hit E o s h
    have bx := abs_scaled_le (m := (0.24 : K)) h.1 (abs_le_hypot_left hE _ _) (by norm_num)
    have bz := abs_scaled_le (m := (0.24 : K)) h.1 (abs_le_hypot_right hE _ _) (by norm_num)
    rw [← ex] at bx
    rw [← ez] at bz
    rw [abs_le] at bx bz hox hoz ⊢
    rw [abs_le]
    norm_num at *
    refine ⟨⟨?_, ?_⟩, ⟨?_, ?_⟩⟩ <;> linarith
  · rw [handleObstacleCollision_miss E o s (by
      rcases not_and_or.mp h with h1 | h1
      · exact Or.inl (le_antisymm (not_lt.mp h1) (hE _ _).1)
      · exact Or.inr (not_lt.mp h1))]
    exact ⟨hx, hz⟩

theorem handleStrikerCollision_obstacles (E : MathEnv K) (s : State K) :
    (handleStrikerCollision E s).obstacle1X = s.obstacle1X ∧
    (handleStrikerCollision E s).obstacle2X = s.obstacle2X := by
  unfold handleStrikerCollision
  simp only
  split_ifs <;> exact ⟨rfl, rfl⟩

theorem handleObstacleCollision_obstacles (E : MathEnv K) (o : Vec3 K) (s : State K) :
    (handleObstacleCollision E o s).obstacle1X = s.obstacle1X ∧
    (handleObstacleCollision E o s).obstacle2X = s.obstacle2X := by
  unfold handleObstacleCollision
  simp only
  split_ifs <;> exact ⟨rfl, rfl⟩

/-- The start position of the ball, written by `resetBall`. -/
theorem resetBall_ball (s : State K) : (resetBall s).ball = ⟨-0.63, 0.06, 1.88⟩ := by
  simp only [resetBall, fieldWidth, fieldHeight, ballRadius]; norm_num

theorem handleGoalOrMiss_ball (random : Nat → K) (nowMs : K) (s : State K) :
    (handleGoalOrMiss random nowMs s).ball = s.ball ∨
    (handleGoalOrMiss random nowMs s).ball = ⟨-0.63, 0.06, 1.88⟩ := by
  unfold handleGoalOrMiss
  simp only
  split_ifs <;>
    first
    | exact Or.inl rfl
    | exact Or.inr (by simp only [showMessage_ball, spawnGoalConfetti, resetStriker]
                       exact resetBall_ball _)

theorem autoReset_ball (dt : K) (s : State K) :
    (autoReset dt s).ball = s.ball ∨ (autoReset dt s).ball = ⟨-0.63, 0.06, 1.88⟩ := by
  unfold autoReset
  simp only
  split_ifs <;>
    first
    | exact Or.inl rfl
    | exact Or.inr (by simp only [showMessage_ball, resetStriker]
                       exact resetBall_ball _)

/-- The ball after a frame is the ball after the three collision corrections
or the start position. -/
theorem step_ball (E : MathEnv K) (inp : FrameInput K) (s : State K) :
    ∃ q : State K,
      (step E inp s).ball =
        (handleObstacleCollision E
          (obstacle2Pos (handleObstacleCollision E
            (obstacle1Pos (handleStrikerCollision E
              (moveDefenders E (min 0.05 ((inp.now - s.lastTime) / 1000))
                (clampBounce (integrateBall E (-E.pi / 4)
                  (min 0.05 ((inp.now - s.lastTime) / 1000))
                  (clampStrikerInsideField q))))))
            (handleStrikerCollision E
              (moveDefenders E (min 0.05 ((inp.now - s.lastTime) / 1000))
                (clampBounce (integrateBall E (-E.pi / 4)
                  (min 0.05 ((inp.now - s.lastTime) / 1000))
                  (clampStrikerInsideField q)))))))
          (handleObstacleCollision E
            (obstacle1Pos (handleStrikerCollision E
              (moveDefenders E (min 0.05 ((inp.now - s.lastTime) / 1000))
                (clampBounce (integrateBall E (-E.pi / 4)
                  (min 0.05 ((inp.now - s.lastTime) / 1000))
                  (clampStrikerInsideField q))))))
            (handleStrikerCollision E
              (moveDefenders E (min 0.05 ((inp.now - s.lastTime) / 1000))
                (clampBounce (integrateBall E (-E.pi / 4)
                  (min 0.05 ((inp.now - s.lastTime) / 1000))
                  (clampStrikerInsideField q))))))).ball ∨
      (step E inp s).ball = ⟨-0.63, 0.06, 1.88⟩ := by
  refine ⟨applyStrikerInput E (readXRThumbsticks E inp.xr) inp.strikerKeys
    (min 0.05 ((inp.now - s.lastTime) / 1000))
    (applyTiltInput (readXRThumbsticks E inp.xr) inp.tiltKeys
      { s with lastTime := inp.now }), ?_⟩
  unfold step
  simp only
  have hu : ∀ (dt : K) (t : State K), (updateConfetti dt t).ball = t.ball := fun _ _ => rfl
  rw [hu]
  rcases autoReset_ball (min 0.05 ((inp.now - s.lastTime) / 1000))
    (handleGoalOrMiss inp.random inp.nowMs _) with h | h
  · rw [h]
    rcases handleGoalOrMiss_ball inp.random inp.nowMs _ with h | h
    · rw [h]
      left
      rfl
    · exact Or.inr h
  · exact Or.inr h

/-- The ball bounds after the collision corrections, from any state `m` whose
ball is inside the edge clamp, whose striker is inside its bounds and whose
obstacles are within their oscillation range. -/
theorem collisions_ball_bounds (E : MathEnv K) (hE : ExactHypot E) (m : State K)
    (hsx : |m.striker.x| ≤ 0.475) (hsz0 : 0 ≤ m.striker.z) (hsz1 : m.striker.z ≤ 1.665)
    (hx : |m.ball.x| ≤ 0.69) (hz : |m.ball.z| ≤ 1.94)
    (ho1 : |m.obstacle1X| ≤ 0.5) (ho2 : |m.obstacle2X| ≤ 0.5) :
    |(handleObstacleCollision E
        (obstacle2Pos (handleObstacleCollision E (obstacle1Pos (handleStrikerCollision E m))
          (handleStrikerCollision E m)))
        (handleObstacleCollision E (obstacle1Pos (handleStrikerCollision E m))
          (handleStrikerCollision E m))).ball.x| ≤ 0.74 ∧
    |(handleObstacleCollision E
        (obstacle2Pos (handleObstacleCollision E (obstacle1Pos (handleStrikerCollision E m))
          (handleStrikerCollision E m)))
        (handleObstacleCollision E (obstacle1Pos (handleStrikerCollision E m))
          (handleStrikerCollision E m))).ball.z| ≤ 1.94 := by
  obtain ⟨h1x, h1z⟩ := handleStrikerCollision_ball_bounds E hE m hsx hsz0 hsz1 hx hz
  have h1x' : |(handleStrikerCollision E m).ball.x| ≤ 0.74 :=
    le_trans h1x (by norm_num)
  obtain ⟨e1, e2⟩ := handleStrikerCollision_obstacles E m
  obtain ⟨h2x, h2z⟩ := handleObstacleCollision_ball_bounds E hE
    (obstacle1Pos (handleStrikerCollision E m)) (handleStrikerCollision E m)
    (by simp only [obstacle1Pos, e1]; exact ho1)
    (by simp only [obstacle1Pos, abs_zero]; norm_num) h1x' h1z
  obtain ⟨_, e4⟩ := handleObstacleCollision_obstacles E
    (obstacle1Pos (handleStrikerCollision E m)) (handleStrikerCollision E m)
  exact handleObstacleCollision_ball_bounds E hE _ _
    (by simp only [obstacle2Pos, e4, e2]; exact ho2)
    (by simp only [obstacle2Pos, abs_neg]; rw [abs_of_pos (by norm_num)]) h2x h2z

theorem moveDefenders_obstacles (E : MathEnv K) (hT : BoundedTrig E) (dt : K) (s : State K) :
    |(moveDefenders E dt s).obstacle1X| ≤ 0.5 ∧ |(moveDefenders E dt s).obstacle2X| ≤ 0.5 := by
  have h1 := (hT ((s.obstacleTime + dt) * 0.8)).1
  have h2 := (hT ((s.obstacleTime + dt) * 0.7)).2
  simp only [moveDefenders]
  rw [abs_le] at h1 h2 ⊢
  rw [abs_le]
  norm_num at *
  refine ⟨⟨?_, ?_⟩, ⟨?_, ?_⟩⟩ <;> linarith

/-- C8 (amended). With an exact `Math.hypot` and `sin`, `cos` in `[-1, 1]`:
right after the edge clamp the ball satisfies `|x| ≤ halfW` and `|z| ≤ halfH`;
after one full execution of `step`, from any state with any input, it
satisfies `|x| ≤ 0.74` (the farthest an obstacle correction can put it) and
`|z| ≤ halfH = 1.94`. -/
theorem step_ball_within (E : MathEnv K) (hE : ExactHypot E) (hT : BoundedTrig E)
    (inp : FrameInput K) (s : State K) :
    (|(clampBounce s).ball.x| ≤ halfW ∧ |(clampBounce s).ball.z| ≤ halfH) ∧
    |(step E inp s).ball.x| ≤ 0.74 ∧ |(step E inp s).ball.z| ≤ halfH := by
  have hW : (halfW : K) = 0.69 := by simp only [halfW, fieldWidth, ballRadius]; norm_num
  have hH : (halfH : K) = 1.94 := by simp only [halfH, fieldHeight, ballRadius]; norm_num
  rw [hW, hH]
  refine ⟨clampBounce_ball s, ?_⟩
  obtain ⟨q, h | h⟩ := step_ball E inp s
  · rw [h]
    obtain ⟨c1, c2, c3, c4, _⟩ := clampStrikerInsideField_bounds q
    obtain ⟨o1, o2⟩ := moveDefenders_obstacles E hT (min 0.05 ((inp.now - s.lastTime) / 1000))
      (clampBounce (integrateBall E (-E.pi / 4) (min 0.05 ((inp.now - s.lastTime) / 1000))
        (clampStrikerInsideField q)))
    obtain ⟨b1, b2⟩ := clampBounce_ball (integrateBall E (-E.pi / 4)
      (min 0.05 ((inp.now - s.lastTime) / 1000)) (clampStrikerInsideField q))
    have hs : (moveDefenders E (min 0.05 ((inp.now - s.lastTime) / 1000))
        (clampBounce (integrateBall E (-E.pi / 4) (min 0.05 ((inp.now - s.lastTime) / 1000))
          (clampStrikerInsideField q)))).striker = (clampStrikerInsideField q).striker := by
      have hm : ∀ (dt : K) (t : State K), (moveDefenders E dt t).striker = t.striker :=
        fun _ _ => rfl
      rw [hm, clampBounce_striker]
      rfl
    exact collisions_ball_bounds E hE _ (by rw [hs, abs_le]; exact ⟨c1, c2⟩)
      (by rw [hs]; exact c3) (by rw [hs]; exact c4) b1 b2 o1 o2
  · rw [h]
    constructor
    · rw [abs_le]; norm_num
    · rw [abs_le]; norm_num

theorem boundedTrig_real :
    BoundedTrig (⟨fun x z => √(x * x + z * z), Real.sin, Real.cos, Real.pi⟩ : MathEnv ℝ) :=
  fun t => ⟨Real.abs_sin_le_one t, Real.abs_cos_le_one t⟩

theorem handleGoalOrMiss_far (random : Nat → K) (nowMs : K) (s : State K)
    (h : -1.73 < s.ball.z) : handleGoalOrMiss random nowMs s = s := by
  have h2 : s.ball.z > goalZBandMax + 0.02 := by
    simp only [goalZBandMax, fieldHeight, goalDepth, gt_iff_lt]
    norm_num at h ⊢; linarith
  unfold handleGoalOrMiss
  simp only [h2, if_true, ite_self]

theorem autoReset_ball_idle (dt : K) (s : State K) (h : s.idleTimer + dt ≤ 3) :
    (autoReset dt s).ball = s.ball := by
  have h3 : ¬ (s.idleTimer + dt > 3.0) := by
    rw [gt_iff_lt, not_lt]; norm_num; exact h
  unfold autoReset
  simp only [h3, if_false]
  split_ifs <;> rfl

theorem handleStrikerCollision_idleTimer (E : MathEnv K) (s : State K) :
    (handleStrikerCollision E s).idleTimer = s.idleTimer := by
  unfold handleStrikerCollision
  simp only
  split_ifs <;> rfl

/-- C8 (counterexample). Over `ℝ`, with `dt = 0.016`: the ball rests at the
right edge `x = 0.69`, the striker stands at `x = 0.475` beside it; the striker
correction, which runs after the edge clamp, puts the ball at `x = 0.6925`,
outside `|x| ≤ halfW = 0.69`. -/
theorem step_ball_escapes :
    min (0.05 : ℝ) (((idleInput 16 16 : FrameInput ℝ).now -
      (sampleState (⟨0.69, 0.06, 1⟩ : Vec3 ℝ) ⟨0.475, 0.02, 1⟩ 0 0).lastTime) / 1000) = 0.016 ∧
    (step ⟨fun x z => √(x * x + z * z), Real.sin, Real.cos, Real.pi⟩ (idleInput 16 16)
      (sampleState ⟨0.69, 0.06, 1⟩ ⟨0.475, 0.02, 1⟩ 0 0)).ball.x = 0.6925 ∧
    ¬ |(step ⟨fun x z => √(x * x + z * z), Real.sin, Real.cos, Real.pi⟩ (idleInput 16 16)
      (sampleState ⟨0.69, 0.06, 1⟩ ⟨0.475, 0.02, 1⟩ 0 0)).ball.x| ≤ halfW := by
  have hE := exactHypot_real
  obtain ⟨m, d, hstep, hd, hball, hstr, hidle⟩ : ∃ (m : State ℝ) (d : ℝ),
      step ⟨fun x z => √(x * x + z * z), Real.sin, Real.cos, Real.pi⟩ (idleInput 16 16)
        (sampleState ⟨0.69, 0.06, 1⟩ ⟨0.475, 0.02, 1⟩ 0 0) =
      updateConfetti d (autoReset d (handleGoalOrMiss (fun _ => 1 / 2) 16
        (handleObstacleCollision ⟨fun x z => √(x * x + z * z), Real.sin, Real.cos, Real.pi⟩
          (obstacle2Pos (handleObstacleCollision
            ⟨fun x z => √(x * x + z * z), Real.sin, Real.cos, Real.pi⟩
            (obstacle1Pos (handleStrikerCollision
              ⟨fun x z => √(x * x + z * z), Real.sin, Real.cos, Real.pi⟩ m))
            (handleStrikerCollision
              ⟨fun x z => √(x * x + z * z), Real.sin, Real.cos, Real.pi⟩ m)))
          (handleObstacleCollision ⟨fun x z => √(x * x + z * z), Real.sin, Real.cos, Real.pi⟩
            (obstacle1Pos (handleStrikerCollision
              ⟨fun x z => √(x * x + z * z), Real.sin, Real.cos, Real.pi⟩ m))
            (handleStrikerCollision
              ⟨fun x z => √(x * x + z * z), Real.sin, Real.cos, Real.pi⟩ m))))) ∧
      d = 0.016 ∧ m.ball = ⟨0.69, 0.06, 1⟩ ∧ m.striker = ⟨0.475, 0.02, 1⟩ ∧ m.idleTimer = 0 := by
    refine ⟨_, _, rfl, ?_, ?_, ?_, ?_⟩
    · simp only [idleInput, sampleState]
      rw [min_eq_right (by norm_num)]
      norm_num
    · simp [idleInput, sampleState, moveDefenders, clampBounce, integrateBall,
        clampStrikerInsideField, applyStrikerInput, applyTiltInput, readXRThumbsticks,
        updateStrikerFromKeys, updateTiltFromKeys, halfW, halfH, fieldWidth, fieldHeight,
        ballRadius]
      norm_num
    · simp [idleInput, sampleState, moveDefenders, clampBounce, integrateBall,
        clampStrikerInsideField, applyStrikerInput, applyTiltInput, readXRThumbsticks,
        updateStrikerFromKeys, updateTiltFromKeys, halfW, halfH, fieldWidth, fieldHeight,
        ballRadius, strikerHalfW, strikerHalfD, strikerWidth, strikerDepth, strikerHeight]
      norm_num
    · norm_num [idleInput, sampleState, moveDefenders, clampBounce, integrateBall,
        clampStrikerInsideField, applyStrikerInput, applyTiltInput, readXRThumbsticks,
        updateStrikerFromKeys, updateTiltFromKeys, halfW, halfH, fieldWidth, fieldHeight,
        ballRadius]
  have hdist : (⟨fun x z => √(x * x + z * z), Real.sin, Real.cos, Real.pi⟩ : MathEnv ℝ).hypot
      (m.ball.x - m.striker.x) (m.ball.z - m.striker.z) = 0.215 :=
    hypot_unique hE (by norm_num) (by rw [hball, hstr]; norm_num)
  obtain ⟨cx, cz⟩ := handleStrikerCollision_hit _ m (by rw [hdist]; norm_num)
  rw [hdist, hball, hstr] at cx cz
  have cx' : (handleStrikerCollision
      ⟨fun x z => √(x * x + z * z), Real.sin, Real.cos, Real.pi⟩ m).ball.x = 0.6925 := by
    norm_num at cx; linarith
  have cz' : (handleStrikerCollision
      ⟨fun x z => √(x * x + z * z), Real.sin, Real.cos, Real.pi⟩ m).ball.z = 1 := by
    norm_num at cz; linarith
  have o1 := handleObstacleCollision_miss
    ⟨fun x z => √(x * x + z * z), Real.sin, Real.cos, Real.pi⟩
    (obstacle1Pos (handleStrikerCollision
      ⟨fun x z => √(x * x + z * z), Real.sin, Real.cos, Real.pi⟩ m))
    (handleStrikerCollision ⟨fun x z => √(x * x + z * z), Real.sin, Real.cos, Real.pi⟩ m)
    (Or.inr (le_trans (by rw [cz']; norm_num [obstacle1Pos]) (abs_le_hypot_right hE _ _)))
  rw [o1] at hstep
  have o2 := handleObstacleCollision_miss
    ⟨fun x z => √(x * x + z * z), Real.sin, Real.cos, Real.pi⟩
    (obstacle2Pos (handleStrikerCollision
      ⟨fun x z => √(x * x + z * z), Real.sin, Real.cos, Real.pi⟩ m))
    (handleStrikerCollision ⟨fun x z => √(x * x + z * z), Real.sin, Real.cos, Real.pi⟩ m)
    (Or.inr (le_trans (by rw [cz']; norm_num [obstacle2Pos, abs_of_pos])
      (abs_le_hypot_right hE _ _)))
  rw [o2, handleGoalOrMiss_far _ _ _ (by rw [cz']; norm_num)] at hstep
  have hb : (step ⟨fun x z => √(x * x + z * z), Real.sin, Real.cos, Real.pi⟩ (idleInput 16 16)
      (sampleState ⟨0.69, 0.06, 1⟩ ⟨0.475, 0.02, 1⟩ 0 0)).ball =
      (handleStrikerCollision
        ⟨fun x z => √(x * x + z * z), Real.sin, Real.cos, Real.pi⟩ m).ball := by
    rw [hstep]
    have hu : ∀ (dt : ℝ) (t : State ℝ), (updateConfetti dt t).ball = t.ball := fun _ _ => rfl
    rw [hu]
    exact autoReset_ball_idle d _ (by
      rw [handleStrikerCollision_idleTimer, hidle, hd]; norm_num)
  rw [hb, cx']
  have hW : (halfW : ℝ) = 0.69 := by simp only [halfW, fieldWidth, ballRadius]; norm_num
  rw [hW]
  refine ⟨?_, rfl, ?_⟩
  · simp only [idleInput, sampleState]
    rw [min_eq_right (by norm_num)]
    norm_num
  · rw [abs_of_pos (by norm_num)]
    norm_num

/-- With one input source above the dead zone, `readXRThumbsticks` returns the
stick as `striker` when the source is left-handed and as `tilt` otherwise. -/
theorem readXRThumbsticks_single (E : MathEnv K) (x y : K) (hand : Handedness)
    (hmag : ¬ E.hypot x y < 0.15) :
    readXRThumbsticks E (some ⟨some ⟨[⟨some ⟨some [x, y]⟩, hand⟩]⟩⟩) =
      match hand with
      | Handedness.left =>
        ⟨none, some ⟨if |x| < 0.15 then 0 else x, if |y| < 0.15 then 0 else y⟩⟩
      | _ => ⟨some ⟨if |x| < 0.15 then 0 else x, if |y| < 0.15 then 0 else y⟩, none⟩ := by
  cases hand <;> simp [readXRThumbsticks, readSource, hmag]

/-- C9 (failing input). Over `ℝ`: a session whose only input source is a
left-handed controller with axes `(0.5, 0)` gives `tilt = null` and the stick as
`striker`, not the stick as `tilt`. -/
theorem single_left_controller_drives_striker :
    readXRThumbsticks ⟨fun x z => √(x * x + z * z), Real.sin, Real.cos, Real.pi⟩
      (some ⟨some ⟨[⟨some ⟨some [0.5, 0]⟩, Handedness.left⟩]⟩⟩) =
      ⟨none, some ⟨0.5, 0⟩⟩ := by
  have hd : (⟨fun x z => √(x * x + z * z), Real.sin, Real.cos, Real.pi⟩ : MathEnv ℝ).hypot
      0.5 0 = 0.5 :=
    hypot_unique exactHypot_real (by norm_num) (by norm_num)
  rw [readXRThumbsticks_single _ _ _ _ (by rw [hd]; norm_num)]
  norm_num [abs_of_pos]

/-- An instance of the amended C8 over `ℝ`, at the frame of the counterexample. -/
theorem step_ball_within_witness :
    ExactHypot (⟨fun x z => √(x * x + z * z), Real.sin, Real.cos, Real.pi⟩ : MathEnv ℝ) ∧
    BoundedTrig (⟨fun x z => √(x * x + z * z), Real.sin, Real.cos, Real.pi⟩ : MathEnv ℝ) ∧
    |(step ⟨fun x z => √(x * x + z * z), Real.sin, Real.cos, Real.pi⟩ (idleInput 16 16)
      (sampleState ⟨0.69, 0.06, 1⟩ ⟨0.475, 0.02, 1⟩ 0 0)).ball.x| ≤ 0.74 ∧
    |(step ⟨fun x z => √(x * x + z * z), Real.sin, Real.cos, Real.pi⟩ (idleInput 16 16)
      (sampleState ⟨0.69, 0.06, 1⟩ ⟨0.475, 0.02, 1⟩ 0 0)).ball.z| ≤ halfH :=
  ⟨exactHypot_real, boundedTrig_real,
    (step_ball_within _ exactHypot_real boundedTrig_real (idleInput 16 16)
      (sampleState ⟨0.69, 0.06, 1⟩ ⟨0.475, 0.02, 1⟩ 0 0)).2⟩

end Theorems

end ARProject
